import Mathlib

/-!
# CollageCreator-CLI: the command-line entry point

A shallow embedding of `src/CollageCreator_CLI.go` (package `main`): the
component registry filled by `init`, and `main`, which negotiates custom
parameters with the components, selects one component per role from the
command-line flags, resolves the output type and output file name, and hands
the parameters to `CollageCreator.CreateCollage`.

Conventions of the embedding.

* A run of `main` is a pure function of: the values of the flags after
  `flag.Parse()`, the positional arguments (`inputImages`), the order in which
  the `range` loop visits the registry map, the behaviour of the functions of
  the `CollageCreator` package (record `Externals`), and an initial state of
  the custom-parameter area the components work on.
* The result of a run is the sequence of calls `main` made on the library
  (`Event`) and the way the process ended (`Outcome`).
* Go strings are modelled by Lean strings. `filepath.Ext` only looks for the
  ASCII characters `.` and `/` (Unix path separator) and `ext[1:]` removes a
  one-byte `.`, so characters and bytes agree on every string involved.
-/

namespace CollageCreatorCLI

/-! ## Types of the `CollageCreator` package used by `main` -/

/-- Modelled from the spec: the `Dimensions` type of the CollageCreator package
(not part of this source file), a width and a height, non-negative integers. -/
structure Dimensions where
  width : Nat
  height : Nat
  deriving DecidableEq, Repr

/-- Modelled from the spec: the `Geometry` type of the CollageCreator package
(not part of this source file): size, offsets and the percentage modifier. -/
structure Geometry where
  width : Nat
  height : Nat
  xOffset : Int
  yOffset : Int
  isPercentage : Bool
  deriving DecidableEq, Repr

/-- The five role interfaces of the package: `ProgressMonitor`,
`InputImageReader`, `DimensionInitializer`, `PositionCalculator`,
`CollageRenderer`. -/
inductive Role
  | progressMonitor
  | inputImageReader
  | dimensionInitializer
  | positionCalculator
  | collageRenderer
  deriving DecidableEq, Repr

/-- The eight singleton components created in `init`, one per `..._Init()`
call; a component is identified by the constructor that made it. -/
inductive Component
  | ProgressMonitor
  | InputImageReader_Raster
  | DimensionInitializer_Uniform
  | PositionCalculator_Random
  | PositionCalculator_TileInOrder
  | CollageRenderer_Raster
  | CollageRenderer_SVG
  | CollageRenderer_ImageMagickScript
  deriving DecidableEq, Repr

/-- The role interface a component implements: the one its `_Init`
constructor is named after. A type assertion `c.(CollageCreator.R)` succeeds
exactly when `c.role = R`. -/
def Component.role : Component → Role
  | .ProgressMonitor => .progressMonitor
  | .InputImageReader_Raster => .inputImageReader
  | .DimensionInitializer_Uniform => .dimensionInitializer
  | .PositionCalculator_Random => .positionCalculator
  | .PositionCalculator_TileInOrder => .positionCalculator
  | .CollageRenderer_Raster => .collageRenderer
  | .CollageRenderer_SVG => .collageRenderer
  | .CollageRenderer_ImageMagickScript => .collageRenderer

/-- The prefix of the registry keys of a role (`role prefix + variant`). -/
def Role.keyPrefix : Role → String
  | .progressMonitor => "ProgressMonitor"
  | .inputImageReader => "InputImageReader_"
  | .dimensionInitializer => "DimensionInitializer_"
  | .positionCalculator => "PositionCalculator_"
  | .collageRenderer => "CollageRenderer_"

/-- Modelled from the spec: the `Parameters` type of the CollageCreator package
(not part of this source file), restricted to what `main` sets and reads: the
component selected for each role (`none` while unset) and the values passed to
the setters. -/
structure Parameters where
  progressMonitor : Option Component
  inputImageReader : Option Component
  dimensionInitializer : Option Component
  positionCalculator : Option Component
  collageRenderer : Option Component
  inFiles : List String
  outFile : String
  aspectRatio : Geometry
  padding : Geometry
  minCanvasSize : Dimensions
  maxCanvasSize : Dimensions
  deriving DecidableEq, Repr

/-- Modelled from the spec: `CollageCreator.Parameters_init()`, a parameter
set with no role occupied and nothing declared. -/
def Parameters_init : Parameters :=
  { progressMonitor := none, inputImageReader := none, dimensionInitializer := none,
    positionCalculator := none, collageRenderer := none, inFiles := [], outFile := "",
    aspectRatio := ⟨0, 0, 0, 0, false⟩, padding := ⟨0, 0, 0, 0, false⟩,
    minCanvasSize := ⟨0, 0⟩, maxCanvasSize := ⟨0, 0⟩ }

/-- The getter of a role on `Parameters` (`params.ProgressMonitor()`, ...). -/
def Parameters.get (p : Parameters) : Role → Option Component
  | .progressMonitor => p.progressMonitor
  | .inputImageReader => p.inputImageReader
  | .dimensionInitializer => p.dimensionInitializer
  | .positionCalculator => p.positionCalculator
  | .collageRenderer => p.collageRenderer

/-- The setter of a role on `Parameters` (`params.SetProgressMonitor(c)`, ...). -/
def Parameters.set (p : Parameters) (r : Role) (c : Component) : Parameters :=
  match r with
  | .progressMonitor => { p with progressMonitor := some c }
  | .inputImageReader => { p with inputImageReader := some c }
  | .dimensionInitializer => { p with dimensionInitializer := some c }
  | .positionCalculator => { p with positionCalculator := some c }
  | .collageRenderer => { p with collageRenderer := some c }

/-- What `main` calls but this repository does not define. The callbacks of
the components return their verdict and work on the custom-parameter area `σ`
(each component's own area in the parameter set); they may read the other
parameters but do not call the setters `main` calls, and they return.
`ParseGeometry` returns a geometry or the text of its error; `MustParseDims`
returns `none` when it does not return to `main`; `toLowerRune` is the
per-rune mapping of Go's `strings.ToLower` (the Unicode tables of the Go
library). -/
structure Externals (σ : Type) where
  RegisterCustomParameters : Component → Parameters → σ → Bool × σ
  ParseCustomParameters : Component → Parameters → σ → Bool × σ
  ParseGeometry : String → Except String Geometry
  MustParseDims : String → Option Dimensions
  CreateCollage : Parameters → σ → Int
  toLowerRune : Char → Char

/-! ## Observable behaviour of a run -/

/-- One call made by `main` on the library. -/
inductive Event
  | registerCustomParameters (c : Component) (ok : Bool)
  | setRole (r : Role) (c : Component)
  | setInFiles (files : List String)
  | setOutFile (name : String)
  | setAspectRatio (g : Geometry)
  | setPadding (g : Geometry)
  | setMinCanvasSize (d : Dimensions)
  | setMaxCanvasSize (d : Dimensions)
  | parseCustomParameters (c : Component) (ok : Bool)
  | createCollage (params : Parameters) (errorlevel : Int)
  deriving DecidableEq, Repr

/-- How the process ends. `fatal msg` is `log.Fatal(msg)`: the message is
logged and the process ends through `os.Exit(1)`. `exit n` is `os.Exit(n)`.
`panic` is a Go run-time panic (type assertion on a missing map entry or on a
component of another role, method call on an unset role). `libraryAbort` is
`MustParseDims` not returning. -/
inductive Outcome
  | fatal (msg : String)
  | exit (errorlevel : Int)
  | panic
  | libraryAbort
  deriving DecidableEq, Repr

/-- The exit status of the process, where `main` fixes it. The operating
system keeps the low eight bits of the argument of `os.Exit`, so the status is
that argument modulo 256 (`os.Exit(256)` ends with status 0, `os.Exit(-1)`
with status 255): 1 for `log.Fatal`, `n % 256` for `os.Exit(n)`. -/
def Outcome.exitStatus : Outcome → Option Int
  | .fatal _ => some 1
  | .exit n => some (n % 256)
  | .panic => none
  | .libraryAbort => none

/-- The calls made during a run and the way it ended. -/
structure Run where
  trace : List Event
  outcome : Outcome
  deriving DecidableEq, Repr

/-- The values of the flags after `flag.Parse()`; the defaults are those of
the flag definitions (lines 29-37). -/
structure Flags where
  outFile : String := "Collage"
  padding : String := "0x0"
  aspectRatio : String := "0x0"
  minCanvasSize : String := "0x0"
  maxCanvasSize : String := "0x0"
  inputImageReader : String := "Raster"
  dimensionInitializer : String := "Uniform"
  positionCalculator : String := "Random"
  outputFileType : String := ""
  deriving DecidableEq, Repr

/-! ## The registry (lines 14-25) -/

/-- The map `AllCollageCreatorComponents` after `init`: the eight
assignments, in source order. The keys are pairwise different, so the
association list is the map. -/
def AllCollageCreatorComponents : List (String × Component) :=
  [ ("ProgressMonitor", .ProgressMonitor),
    ("InputImageReader_Raster", .InputImageReader_Raster),
    ("DimensionInitializer_Uniform", .DimensionInitializer_Uniform),
    ("PositionCalculator_Random", .PositionCalculator_Random),
    ("PositionCalculator_TileInOrder", .PositionCalculator_TileInOrder),
    ("CollageRenderer_Raster", .CollageRenderer_Raster),
    ("CollageRenderer_SVG", .CollageRenderer_SVG),
    ("CollageRenderer_ImageMagickScript", .CollageRenderer_ImageMagickScript) ]

/-- The map index expression `AllCollageCreatorComponents[key]` with its
`ok` result: `none` when the key is absent. -/
def registryLookup (key : String) : Option Component :=
  AllCollageCreatorComponents.lookup key

/-- The values of the registry: what the `range` loop of line 39 visits, in
some order. -/
def registryComponents : List Component :=
  AllCollageCreatorComponents.map Prod.snd

/-! ## Go library functions on strings -/

/-- The loop of `filepath.Ext`, run on the reversed path: stop at a path
separator, return the suffix from the first `.` met. -/
def extAux : List Char → List Char → List Char
  | [], _ => []
  | c :: rest, acc =>
    if c = '/' then [] else if c = '.' then c :: acc else extAux rest (c :: acc)

/-- The function `filepath.Ext`: the suffix beginning at the final dot of the
final path element, empty if there is no dot. -/
def Ext (path : String) : String := ⟨extAux path.data.reverse []⟩

/-- The function `strings.ToLower`, rune by rune. -/
def ToLower (toLowerRune : Char → Char) (s : String) : String :=
  ⟨s.data.map toLowerRune⟩

/-- The slice expression `s[1:]` on a non-empty string. -/
def sliceFrom1 (s : String) : String := ⟨s.data.drop 1⟩

/-! ## The registration loop (lines 38-41) -/

/-- The variables the two negotiation phases update: `valid`, the
custom-parameter area, and the calls made so far. -/
structure Negotiation (σ : Type) where
  valid : Bool
  custom : σ
  trace : List Event

/-- The loop `for _, css := range AllCollageCreatorComponents` over the
visiting order `order`, with body
`valid = valid && css.RegisterCustomParameters(&params)`: the operator `&&`
evaluates its right operand only when `valid` is still true. -/
def registrationLoop {σ : Type} (ext : Externals σ) (params : Parameters) :
    List Component → Negotiation σ → Negotiation σ
  | [], st => st
  | css :: rest, st =>
    if st.valid then
      let r := ext.RegisterCustomParameters css params st.custom
      registrationLoop ext params rest
        ⟨r.1, r.2, st.trace ++ [Event.registerCustomParameters css r.1]⟩
    else
      registrationLoop ext params rest st

/-! ## Selection of the components and of the output (lines 53-126) -/

/-- The parameters under construction and the calls made so far. -/
structure Config where
  params : Parameters
  trace : List Event

/-- A call `params.SetX(c)` of a role setter. -/
def Config.setRole (cfg : Config) (r : Role) (c : Component) : Config :=
  ⟨cfg.params.set r c, cfg.trace ++ [Event.setRole r c]⟩

/-- The statement `params.SetX(AllCollageCreatorComponents[key].(CollageCreator.X))`
without an `ok` check (lines 53, 85, 93, 101): the type assertion panics on a
missing entry and on a component of another role. -/
def uncheckedSelect (r : Role) (key : String) (cfg : Config) : Except Run Config :=
  match registryLookup key with
  | some c => if c.role = r then .ok (cfg.setRole r c) else .error ⟨cfg.trace, .panic⟩
  | none => .error ⟨cfg.trace, .panic⟩

/-- The statement
`if c, ok := AllCollageCreatorComponents[key]; ok { params.SetX(c.(CollageCreator.X)) } else { log.Fatal(msg) }`
of lines 55-59, 60-64 and 65-69. -/
def checkedSelect (r : Role) (key : String) (msg : String) (cfg : Config) :
    Except Run Config :=
  match registryLookup key with
  | some c => if c.role = r then .ok (cfg.setRole r c) else .error ⟨cfg.trace, .panic⟩
  | none => .error ⟨cfg.trace, .fatal msg⟩

/-- Lines 70-81: the pair (`*outFile`, `*outputFileType`) after the default
output type has been determined; `first` is `inputImages[0]`. -/
def resolveOutputFileType (toLowerRune : Char → Char)
    (outFile outputFileType first : String) : String × String :=
  if outputFileType = "" then
    let ext := ToLower toLowerRune (Ext outFile)
    let ext := if ext = "" then ToLower toLowerRune (Ext first) else ext
    if ext = "" then (outFile ++ ".jpg", "jpg") else (outFile, sliceFrom1 ext)
  else (outFile, outputFileType)

/-- The `switch *outputFileType` of lines 82-111: the registry key of the
renderer of the matching case, `none` in the `default` case. -/
def rendererKey (outputFileType : String) : Option String :=
  if outputFileType = "jpg" ∨ outputFileType = "jpeg" ∨ outputFileType = "png"
      ∨ outputFileType = "tif" ∨ outputFileType = "tiff" then
    some "CollageRenderer_Raster"
  else if outputFileType = "svg" then some "CollageRenderer_SVG"
  else if outputFileType = "sh" then some "CollageRenderer_ImageMagickScript"
  else none

/-- The second statement of each case of the switch (lines 86-89, 94-97,
102-105): append `"." + *outputFileType` when `*outFile` has no extension. -/
def completeOutFile (toLowerRune : Char → Char) (outFile outputFileType : String) : String :=
  if ToLower toLowerRune (Ext outFile) = "" then outFile ++ "." ++ outputFileType
  else outFile

/-- Lines 82-111: set the renderer of the output type and complete the output
file name, or `log.Fatal("Unrecognized output type:", *outputFileType)`. -/
def selectCollageRenderer (toLowerRune : Char → Char) (outFile outputFileType : String)
    (cfg : Config) : Except Run (Config × String) :=
  match rendererKey outputFileType with
  | none => .error ⟨cfg.trace, .fatal ("Unrecognized output type:" ++ outputFileType)⟩
  | some key =>
    match uncheckedSelect .collageRenderer key cfg with
    | .error r => .error r
    | .ok cfg1 => .ok (cfg1, completeOutFile toLowerRune outFile outputFileType)

/-- Lines 113-126: the files and the declared constraints. -/
def setConstraints {σ : Type} (ext : Externals σ) (flags : Flags) (inputImages : List String)
    (outFile : String) (cfg : Config) : Except Run Config :=
  let p1 := { cfg.params with inFiles := inputImages }
  let t1 := cfg.trace ++ [Event.setInFiles inputImages]
  let p2 := { p1 with outFile := outFile }
  let t2 := t1 ++ [Event.setOutFile outFile]
  match ext.ParseGeometry flags.aspectRatio with
  | .error err => .error ⟨t2, .fatal ("Error parsing aspect ratio:" ++ err)⟩
  | .ok aspectGeom =>
    let p3 := { p2 with aspectRatio := aspectGeom }
    let t3 := t2 ++ [Event.setAspectRatio aspectGeom]
    match ext.ParseGeometry flags.padding with
    | .error err => .error ⟨t3, .fatal ("Error parsing padding:" ++ err)⟩
    | .ok paddingGeom =>
      let p4 := { p3 with padding := paddingGeom }
      let t4 := t3 ++ [Event.setPadding paddingGeom]
      match ext.MustParseDims flags.minCanvasSize with
      | none => .error ⟨t4, .libraryAbort⟩
      | some minDims =>
        let p5 := { p4 with minCanvasSize := minDims }
        let t5 := t4 ++ [Event.setMinCanvasSize minDims]
        match ext.MustParseDims flags.maxCanvasSize with
        | none => .error ⟨t5, .libraryAbort⟩
        | some maxDims =>
          .ok ⟨{ p5 with maxCanvasSize := maxDims }, t5 ++ [Event.setMaxCanvasSize maxDims]⟩

/-- Lines 53-126 in sequence; `first` is `inputImages[0]`. -/
def configure {σ : Type} (ext : Externals σ) (flags : Flags) (inputImages : List String)
    (first : String) (cfg : Config) : Except Run Config := do
  let cfg ← uncheckedSelect .progressMonitor "ProgressMonitor" cfg
  let cfg ← checkedSelect .inputImageReader ("InputImageReader_" ++ flags.inputImageReader)
    ("Invalid InputImageReader:" ++ flags.inputImageReader) cfg
  let cfg ← checkedSelect .dimensionInitializer
    ("DimensionInitializer_" ++ flags.dimensionInitializer)
    ("Invalid DimensionInitializer:" ++ flags.dimensionInitializer) cfg
  let cfg ← checkedSelect .positionCalculator ("PositionCalculator_" ++ flags.positionCalculator)
    ("Invalid PositionCalculator:" ++ flags.positionCalculator) cfg
  let out := resolveOutputFileType ext.toLowerRune flags.outFile flags.outputFileType first
  let (cfg, outFile) ← selectCollageRenderer ext.toLowerRune out.1 out.2 cfg
  setConstraints ext flags inputImages outFile cfg

/-! ## The parsing phase (lines 127-131) -/

/-- A call `params.X().ParseCustomParameters(&params)`; the method call
panics when the role `X` is unset. -/
def callParse {σ : Type} (ext : Externals σ) (params : Parameters) (r : Role)
    (st : Negotiation σ) : Except Run (Negotiation σ) :=
  match params.get r with
  | none => .error ⟨st.trace, .panic⟩
  | some c =>
    let res := ext.ParseCustomParameters c params st.custom
    .ok ⟨res.1, res.2, st.trace ++ [Event.parseCustomParameters c res.1]⟩

/-- The statement `valid = valid && params.X().ParseCustomParameters(&params)`:
nothing is evaluated on the right once `valid` is false. -/
def andParse {σ : Type} (ext : Externals σ) (params : Parameters) (r : Role)
    (st : Negotiation σ) : Except Run (Negotiation σ) :=
  if st.valid then callParse ext params r st else .ok st

/-- Lines 127-131. -/
def parsingPhase {σ : Type} (ext : Externals σ) (params : Parameters)
    (st : Negotiation σ) : Except Run (Negotiation σ) := do
  let st ← callParse ext params .progressMonitor st
  let st ← andParse ext params .inputImageReader st
  let st ← andParse ext params .dimensionInitializer st
  let st ← andParse ext params .positionCalculator st
  andParse ext params .collageRenderer st

/-! ## `main` (lines 27-138) -/

/-- The body of `main` after the registration loop has succeeded and
`inputImages` is known to be non-empty (lines 53-137). -/
def mainBody {σ : Type} (ext : Externals σ) (flags : Flags) (inputImages : List String)
    (first : String) (reg : Negotiation σ) : Except Run Run := do
  let cfg ← configure ext flags inputImages first ⟨Parameters_init, reg.trace⟩
  let st ← parsingPhase ext cfg.params ⟨reg.valid, reg.custom, cfg.trace⟩
  if !st.valid then
    .error ⟨st.trace, .fatal "Error parsing custom parameters"⟩
  else
    let errorlevel := ext.CreateCollage cfg.params st.custom
    .ok ⟨st.trace ++ [Event.createCollage cfg.params errorlevel], .exit errorlevel⟩

/-- The function `main`. `order` is the order in which the `range` loop
visits the registry, `flags` the flag values after `flag.Parse()`,
`inputImages` the positional arguments, `s0` the initial custom-parameter
area. -/
def main {σ : Type} (ext : Externals σ) (order : List Component) (flags : Flags)
    (inputImages : List String) (s0 : σ) : Run :=
  let reg := registrationLoop ext Parameters_init order ⟨true, s0, []⟩
  if !reg.valid then
    ⟨reg.trace, .fatal "Error registering custom parameters"⟩
  else
    match inputImages with
    | [] => ⟨reg.trace, .fatal "Must have at least one input image"⟩
    | first :: _ =>
      match mainBody ext flags inputImages first reg with
      | .error r => r
      | .ok r => r

/-! ## Executable test doubles -/

/-- A library whose components accept every negotiation call except the
registrations listed in `regFail` and the parses listed in `parseFail`, whose
geometry parser accepts exactly `"0x0"` and `"10x10"`, and whose pipeline
returns `code`. -/
def stubExternals (regFail parseFail : List Component) (code : Int) : Externals Unit where
  RegisterCustomParameters := fun c _ s => (!(regFail.contains c), s)
  ParseCustomParameters := fun c _ s => (!(parseFail.contains c), s)
  ParseGeometry := fun s =>
    if s = "0x0" then .ok ⟨0, 0, 0, 0, false⟩
    else if s = "10x10" then .ok ⟨10, 10, 0, 0, false⟩
    else .error "bad geometry"
  MustParseDims := fun s => if s = "0x0" then some ⟨0, 0⟩ else none
  CreateCollage := fun _ _ => code
  toLowerRune := Char.toLower

/-! ## Observations on a trace -/

/-- The `RegisterCustomParameters` call recorded by an event, if it is one. -/
def Event.registered : Event → Option (Component × Bool)
  | .registerCustomParameters c ok => some (c, ok)
  | _ => none

/-- The `ParseCustomParameters` call recorded by an event, if it is one. -/
def Event.parsed : Event → Option (Component × Bool)
  | .parseCustomParameters c ok => some (c, ok)
  | _ => none

/-- The role setter call recorded by an event, if it is one. -/
def Event.roleSet : Event → Option (Role × Component)
  | .setRole r c => some (r, c)
  | _ => none

/-- The `CreateCollage` call recorded by an event, if it is one. -/
def Event.created : Event → Option (Parameters × Int)
  | .createCollage p n => some (p, n)
  | _ => none

/-- The `SetOutFile` call recorded by an event, if it is one. -/
def Event.outFileSet : Event → Option String
  | .setOutFile name => some name
  | _ => none

/-- The `RegisterCustomParameters` calls of a trace, in order, with results. -/
def registerCalls (tr : List Event) : List (Component × Bool) := tr.filterMap Event.registered

/-- The `ParseCustomParameters` calls of a trace, in order, with results. -/
def parseCalls (tr : List Event) : List (Component × Bool) := tr.filterMap Event.parsed

/-- The role setter calls of a trace, in order. -/
def roleSets (tr : List Event) : List (Role × Component) := tr.filterMap Event.roleSet

/-- The `CreateCollage` calls of a trace, in order, with argument and result. -/
def createCalls (tr : List Event) : List (Parameters × Int) := tr.filterMap Event.created

/-- The names passed to `SetOutFile` in a trace, in order. -/
def outFileSets (tr : List Event) : List String := tr.filterMap Event.outFileSet

/-- The event of a `RegisterCustomParameters` call. -/
def registerEvent (x : Component × Bool) : Event := .registerCustomParameters x.1 x.2

/-- The event of a `ParseCustomParameters` call. -/
def parseEvent (x : Component × Bool) : Event := .parseCustomParameters x.1 x.2

/-! ## Definitions used in the statements and in the case analyses -/

/-- The role setter events of a list of selections. -/
def setRoleEvents (l : List (Role × Component)) : List Event :=
  l.map fun x => Event.setRole x.1 x.2

/-- The possible results of `configure`, with the conditions under which each
arises. `t` is the resolved output type and `o` the completed file name. -/
inductive ConfigureCase {σ : Type} (ext : Externals σ) (flags : Flags)
    (inputImages : List String) (first : String) (cfg : Config) : Except Run Config → Prop
  | invalidInputImageReader
      (h1 : registryLookup ("InputImageReader_" ++ flags.inputImageReader) = none) :
      ConfigureCase ext flags inputImages first cfg
        (.error ⟨cfg.trace ++ setRoleEvents [(.progressMonitor, .ProgressMonitor)],
          .fatal ("Invalid InputImageReader:" ++ flags.inputImageReader)⟩)
  | invalidDimensionInitializer (iir : Component)
      (h1 : registryLookup ("InputImageReader_" ++ flags.inputImageReader) = some iir)
      (h2 : registryLookup ("DimensionInitializer_" ++ flags.dimensionInitializer) = none) :
      ConfigureCase ext flags inputImages first cfg
        (.error ⟨cfg.trace ++ setRoleEvents [(.progressMonitor, .ProgressMonitor),
            (.inputImageReader, iir)],
          .fatal ("Invalid DimensionInitializer:" ++ flags.dimensionInitializer)⟩)
  | invalidPositionCalculator (iir di : Component)
      (h1 : registryLookup ("InputImageReader_" ++ flags.inputImageReader) = some iir)
      (h2 : registryLookup ("DimensionInitializer_" ++ flags.dimensionInitializer) = some di)
      (h3 : registryLookup ("PositionCalculator_" ++ flags.positionCalculator) = none) :
      ConfigureCase ext flags inputImages first cfg
        (.error ⟨cfg.trace ++ setRoleEvents [(.progressMonitor, .ProgressMonitor),
            (.inputImageReader, iir), (.dimensionInitializer, di)],
          .fatal ("Invalid PositionCalculator:" ++ flags.positionCalculator)⟩)
  | unrecognizedOutputType (iir di pc : Component)
      (h1 : registryLookup ("InputImageReader_" ++ flags.inputImageReader) = some iir)
      (h2 : registryLookup ("DimensionInitializer_" ++ flags.dimensionInitializer) = some di)
      (h3 : registryLookup ("PositionCalculator_" ++ flags.positionCalculator) = some pc)
      (h4 : rendererKey
        (resolveOutputFileType ext.toLowerRune flags.outFile flags.outputFileType first).2
          = none) :
      ConfigureCase ext flags inputImages first cfg
        (.error ⟨cfg.trace ++ setRoleEvents [(.progressMonitor, .ProgressMonitor),
            (.inputImageReader, iir), (.dimensionInitializer, di), (.positionCalculator, pc)],
          .fatal ("Unrecognized output type:" ++
            (resolveOutputFileType ext.toLowerRune flags.outFile flags.outputFileType first).2)⟩)
  | constraints (iir di pc cr : Component) (key : String) (res : Except Run Config)
      (h1 : registryLookup ("InputImageReader_" ++ flags.inputImageReader) = some iir)
      (h2 : registryLookup ("DimensionInitializer_" ++ flags.dimensionInitializer) = some di)
      (h3 : registryLookup ("PositionCalculator_" ++ flags.positionCalculator) = some pc)
      (h4 : rendererKey
        (resolveOutputFileType ext.toLowerRune flags.outFile flags.outputFileType first).2
          = some key)
      (h5 : registryLookup key = some cr)
      (h6 : res = setConstraints ext flags inputImages
        (completeOutFile ext.toLowerRune
          (resolveOutputFileType ext.toLowerRune flags.outFile flags.outputFileType first).1
          (resolveOutputFileType ext.toLowerRune flags.outFile flags.outputFileType first).2)
        ⟨((((cfg.params.set .progressMonitor .ProgressMonitor).set .inputImageReader iir).set
            .dimensionInitializer di).set .positionCalculator pc).set .collageRenderer cr,
          cfg.trace ++ setRoleEvents [(.progressMonitor, .ProgressMonitor),
            (.inputImageReader, iir), (.dimensionInitializer, di), (.positionCalculator, pc),
            (.collageRenderer, cr)]⟩) :
      ConfigureCase ext flags inputImages first cfg res

/-- The resolved output type of a run: `*outputFileType` after line 81. -/
def resolvedType {σ : Type} (ext : Externals σ) (flags : Flags) (first : String) : String :=
  (resolveOutputFileType ext.toLowerRune flags.outFile flags.outputFileType first).2

/-- The output file name of a run: `*outFile` after line 111. -/
def resolvedOutFile {σ : Type} (ext : Externals σ) (flags : Flags) (first : String) : String :=
  completeOutFile ext.toLowerRune
    (resolveOutputFileType ext.toLowerRune flags.outFile flags.outputFileType first).1
    (resolveOutputFileType ext.toLowerRune flags.outFile flags.outputFileType first).2

/-- The five ways a run of `main` can go, with the calls made in each. -/
inductive MainCase {σ : Type} (ext : Externals σ) (order : List Component) (flags : Flags)
    (inputImages : List String) : Run → Prop
  | registrationFailed (regCalls : List (Component × Bool))
      (hpre : regCalls.map Prod.fst <+: order)
      (hinit : ∀ x ∈ regCalls.dropLast, x.2 = true)
      (hfail : ∃ x ∈ regCalls, x.2 = false) :
      MainCase ext order flags inputImages
        ⟨regCalls.map registerEvent, .fatal "Error registering custom parameters"⟩
  | noInputImage (regCalls : List (Component × Bool))
      (hall : ∀ x ∈ regCalls, x.2 = true)
      (hord : regCalls.map Prod.fst = order)
      (hin : inputImages = []) :
      MainCase ext order flags inputImages
        ⟨regCalls.map registerEvent, .fatal "Must have at least one input image"⟩
  | configureFailed (regCalls : List (Component × Bool))
      (hall : ∀ x ∈ regCalls, x.2 = true)
      (hord : regCalls.map Prod.fst = order)
      (first : String) (rest : List String) (hin : inputImages = first :: rest)
      (r : Run)
      (hcfg : configure ext flags inputImages first
        ⟨Parameters_init, regCalls.map registerEvent⟩ = .error r) :
      MainCase ext order flags inputImages r
  | parseFailed (regCalls : List (Component × Bool))
      (hall : ∀ x ∈ regCalls, x.2 = true)
      (hord : regCalls.map Prod.fst = order)
      (first : String) (rest : List String) (hin : inputImages = first :: rest)
      (cfg : Config)
      (hcfg : configure ext flags inputImages first
        ⟨Parameters_init, regCalls.map registerEvent⟩ = .ok cfg)
      (iir di pc cr : Component)
      (calls : List (Component × Bool))
      (hget : ∀ r, cfg.params.get r = match r with
        | .progressMonitor => some .ProgressMonitor
        | .inputImageReader => some iir
        | .dimensionInitializer => some di
        | .positionCalculator => some pc
        | .collageRenderer => some cr)
      (hne : calls ≠ [])
      (hseg : calls.map Prod.fst <+: [.ProgressMonitor, iir, di, pc, cr])
      (hbut : ∀ x ∈ calls.dropLast, x.2 = true)
      (hfail : ∃ x ∈ calls, x.2 = false) :
      MainCase ext order flags inputImages
        ⟨cfg.trace ++ calls.map parseEvent, .fatal "Error parsing custom parameters"⟩
  | completed (regCalls : List (Component × Bool))
      (hall : ∀ x ∈ regCalls, x.2 = true)
      (hord : regCalls.map Prod.fst = order)
      (first : String) (rest : List String) (hin : inputImages = first :: rest)
      (cfg : Config)
      (hcfg : configure ext flags inputImages first
        ⟨Parameters_init, regCalls.map registerEvent⟩ = .ok cfg)
      (iir di pc cr : Component)
      (calls : List (Component × Bool))
      (hget : ∀ r, cfg.params.get r = match r with
        | .progressMonitor => some .ProgressMonitor
        | .inputImageReader => some iir
        | .dimensionInitializer => some di
        | .positionCalculator => some pc
        | .collageRenderer => some cr)
      (hwhole : calls.map Prod.fst = [.ProgressMonitor, iir, di, pc, cr])
      (hall2 : ∀ x ∈ calls, x.2 = true)
      (s : σ) :
      MainCase ext order flags inputImages
        ⟨cfg.trace ++ calls.map parseEvent ++
            [Event.createCollage cfg.params (ext.CreateCollage cfg.params s)],
          .exit (ext.CreateCollage cfg.params s)⟩

/-- A registry key carries the key prefix of a role. -/
def hasKeyPrefix (r : Role) (key : String) : Prop := r.keyPrefix.data <+: key.data

/-! ## The resolving stage of the pipeline

`CollageCreator.CreateCollage` belongs to the CollageCreator package, whose
source is not in this repository's source file; the resolving stage of its
pipeline is modelled here from section 4.4 of the specification. -/

/-- Modelled from the spec: the `ImageRecord` of the data model (the package
source is missing): one entry per input image, with the size set by the
dimension initializer and the position set by the position calculator. -/
structure ImageRecord where
  sourceIdentifier : String
  nativeSize : Dimensions
  placedSize : Dimensions
  position : Int × Int
  deriving DecidableEq, Repr

/-- Modelled from the spec: the `CanvasPlan` of the data model (the package
source is missing): the resolved canvas and the images at their final
positions. -/
structure CanvasPlan where
  canvas : Dimensions
  images : List ImageRecord
  deriving DecidableEq, Repr

/-- Modelled from the spec: the error kind of the canvas resolver (the package
source is missing). -/
inductive ResolveError
  | unsatisfiableConstraints
  deriving DecidableEq, Repr

/-- Modelled from the spec: step 1 of section 4.4 (the package source is
missing), the extent of the placed images at their calculator-assigned
positions, as (min x, min y, max of x + width, max of y + height). -/
def extent : List ImageRecord → Int × Int × Int × Int
  | [] => (0, 0, 0, 0)
  | r :: rs =>
    rs.foldl
      (fun acc i =>
        (min acc.1 i.position.1, min acc.2.1 i.position.2,
          max acc.2.2.1 (i.position.1 + i.placedSize.width),
          max acc.2.2.2 (i.position.2 + i.placedSize.height)))
      (r.position.1, r.position.2, r.position.1 + r.placedSize.width,
        r.position.2 + r.placedSize.height)

/-- Modelled from the spec: step 2 of section 4.4 (the package source is
missing), the padding on one axis: the value itself, or that percentage of the
bounding box's own size. -/
def paddingOn (isPercentage : Bool) (value size : Nat) : Nat :=
  if isPercentage then size * value / 100 else value

/-- Modelled from the spec: step 3 of section 4.4 (the package source is
missing): with a declared (non-zero) aspect ratio, grow the shorter dimension
just enough to match it; no dimension shrinks. -/
def growToRatio (aspect : Geometry) (w h : Nat) : Nat × Nat :=
  if aspect.width = 0 ∨ aspect.height = 0 then (w, h)
  else if w * aspect.height < h * aspect.width then
    ((h * aspect.width + aspect.height - 1) / aspect.height, h)
  else if h * aspect.width < w * aspect.height then
    (w, (w * aspect.height + aspect.width - 1) / aspect.width)
  else (w, h)

/-- Modelled from the spec: step 4 of section 4.4 (the package source is
missing), one axis: a declared minimum above a declared maximum, or images
that already exceed a declared maximum, cannot be satisfied; otherwise the
size is clamped to the declared bounds (0 is undeclared). -/
def clampAxis (boxSize size lo hi : Nat) : Except ResolveError Nat :=
  if lo ≠ 0 ∧ hi ≠ 0 ∧ hi < lo then .error .unsatisfiableConstraints
  else if hi ≠ 0 ∧ hi < boxSize then .error .unsatisfiableConstraints
  else
    let raised := if lo ≠ 0 then max size lo else size
    .ok (if hi ≠ 0 then min raised hi else raised)

/-- Modelled from the spec: the canvas resolver of section 4.4 (the package
source is missing): bounding box normalized to the origin, padding on all
four sides, aspect-ratio growth, clamping with failure when the ratio would
push an axis past its declared maximum, final positions shifted by the
padding. -/
def resolveCanvas (padding aspect : Geometry) (minSize maxSize : Dimensions)
    (records : List ImageRecord) : Except ResolveError CanvasPlan :=
  let e := extent records
  let boxW := (e.2.2.1 - e.1).toNat
  let boxH := (e.2.2.2 - e.2.1).toNat
  let padW := paddingOn padding.isPercentage padding.width boxW
  let padH := paddingOn padding.isPercentage padding.height boxH
  let grown := growToRatio aspect (boxW + 2 * padW) (boxH + 2 * padH)
  match clampAxis boxW grown.1 minSize.width maxSize.width,
      clampAxis boxH grown.2 minSize.height maxSize.height with
  | .ok w, .ok h =>
    let final := growToRatio aspect w h
    if (maxSize.width ≠ 0 ∧ maxSize.width < final.1) ∨
        (maxSize.height ≠ 0 ∧ maxSize.height < final.2) then
      .error .unsatisfiableConstraints
    else
      .ok ⟨⟨final.1, final.2⟩,
        records.map fun r =>
          { r with position := (r.position.1 - e.1 + padW, r.position.2 - e.2.1 + padH) }⟩
  | _, _ => .error .unsatisfiableConstraints

/-- Modelled from the spec: the `Resolving` state of the pipeline of section
4.5 (the package source is missing), the canvas resolver applied to the
constraints declared in the parameters. -/
def resolving (params : Parameters) (records : List ImageRecord) :
    Except ResolveError CanvasPlan :=
  resolveCanvas params.padding params.aspectRatio params.minCanvasSize params.maxCanvasSize
    records

/-! ## Lemmas: the registration loop -/

theorem registerCalls_map_registerEvent (l : List (Component × Bool)) :
    registerCalls (l.map registerEvent) = l := by
  induction l with
  | nil => rfl
  | cons x xs ih =>
    simp only [registerCalls] at ih
    simp [registerCalls, registerEvent, Event.registered, ih]

theorem parseCalls_map_registerEvent (l : List (Component × Bool)) :
    parseCalls (l.map registerEvent) = [] := by
  induction l with
  | nil => rfl
  | cons x xs ih =>
    simp only [parseCalls] at ih
    simp [parseCalls, registerEvent, Event.parsed, ih]

theorem createCalls_map_registerEvent (l : List (Component × Bool)) :
    createCalls (l.map registerEvent) = [] := by
  induction l with
  | nil => rfl
  | cons x xs ih =>
    simp only [createCalls] at ih
    simp [createCalls, registerEvent, Event.created, ih]

theorem roleSets_map_registerEvent (l : List (Component × Bool)) :
    roleSets (l.map registerEvent) = [] := by
  induction l with
  | nil => rfl
  | cons x xs ih =>
    simp only [roleSets] at ih
    simp [roleSets, registerEvent, Event.roleSet, ih]

theorem outFileSets_map_registerEvent (l : List (Component × Bool)) :
    outFileSets (l.map registerEvent) = [] := by
  induction l with
  | nil => rfl
  | cons x xs ih =>
    simp only [outFileSets] at ih
    simp [outFileSets, registerEvent, Event.outFileSet, ih]

/-- Once `valid` is false the loop calls nothing and changes nothing. -/
theorem registrationLoop_of_invalid {σ : Type} (ext : Externals σ) (params : Parameters)
    (order : List Component) (st : Negotiation σ) (h : st.valid = false) :
    registrationLoop ext params order st = st := by
  induction order with
  | nil => rfl
  | cons c rest ih => simp [registrationLoop, h, ih]

/-- The calls of the registration loop started with `valid = true`: made on an
initial segment of the visiting order, every call but the last returned true,
and `valid` is true at the end exactly when every call returned true, in which
case the whole order was visited. -/
theorem registrationLoop_calls {σ : Type} (ext : Externals σ) (params : Parameters)
    (order : List Component) (st : Negotiation σ) (h : st.valid = true) :
    ∃ calls : List (Component × Bool),
      (registrationLoop ext params order st).trace = st.trace ++ calls.map registerEvent ∧
      calls.map Prod.fst <+: order ∧
      (∀ x ∈ calls.dropLast, x.2 = true) ∧
      ((registrationLoop ext params order st).valid = true ↔ ∀ x ∈ calls, x.2 = true) ∧
      ((registrationLoop ext params order st).valid = true → calls.map Prod.fst = order) := by
  induction order generalizing st with
  | nil => exact ⟨[], by simp [registrationLoop, h]⟩
  | cons c rest ih =>
    cases hr : (ext.RegisterCustomParameters c params st.custom).1 with
    | true =>
      obtain ⟨calls, h1, h2, h3, h4, h5⟩ := ih
        ⟨(ext.RegisterCustomParameters c params st.custom).1,
          (ext.RegisterCustomParameters c params st.custom).2,
          st.trace ++ [Event.registerCustomParameters c
            (ext.RegisterCustomParameters c params st.custom).1]⟩ hr
      refine ⟨(c, true) :: calls, ?_, ?_, ?_, ?_, ?_⟩
      · simp only [registrationLoop, h, if_true, h1]
        simp [registerEvent, hr]
      · simpa using (List.prefix_cons_inj c).2 h2
      · intro x hx
        cases calls with
        | nil => simp at hx
        | cons y ys =>
          simp only [List.dropLast_cons₂, List.mem_cons] at hx
          rcases hx with rfl | hx
          · rfl
          · exact h3 x hx
      · simp only [registrationLoop, h, if_true]
        rw [h4]
        simp
      · simp only [registrationLoop, h, if_true]
        intro hv
        simp [h5 hv]
    | false =>
      refine ⟨[(c, false)], ?_, ?_, ?_, ?_, ?_⟩
      · simp only [registrationLoop, h, if_true]
        rw [registrationLoop_of_invalid _ _ _ _ hr]
        simp [registerEvent, hr]
      · simp [List.prefix_iff_eq_append]
      · simp
      · simp only [registrationLoop, h, if_true]
        rw [registrationLoop_of_invalid _ _ _ _ hr]
        simp [hr]
      · simp only [registrationLoop, h, if_true]
        rw [registrationLoop_of_invalid _ _ _ _ hr]
        simp [hr]

/-! ## Lemmas: the registry -/

theorem registryLookup_eq_some_iff (key : String) (c : Component) :
    registryLookup key = some c ↔ (key, c) ∈ AllCollageCreatorComponents := by
  unfold registryLookup AllCollageCreatorComponents
  simp only [List.lookup_cons, List.lookup_nil, List.mem_cons, Prod.mk.injEq,
    List.mem_nil_iff, or_false]
  repeat' split
  all_goals simp_all
  all_goals exact eq_comm

theorem registryLookup_eq_none_iff (key : String) :
    registryLookup key = none ↔ ∀ c, (key, c) ∉ AllCollageCreatorComponents := by
  rw [Option.eq_none_iff_forall_not_mem]
  constructor
  · intro h c hc
    exact h c ((registryLookup_eq_some_iff key c).2 hc)
  · intro h c hc
    exact h c ((registryLookup_eq_some_iff key c).1 hc)

theorem registryLookup_inputImageReader (n : String) :
    registryLookup ("InputImageReader_" ++ n)
      = if n = "Raster" then some .InputImageReader_Raster else none := by
  split
  · next h => subst h; rfl
  · next h =>
    rw [registryLookup_eq_none_iff]
    intro c
    simp [AllCollageCreatorComponents, String.ext_iff]
    intro h1
    exact absurd (String.ext h1) h

theorem registryLookup_dimensionInitializer (n : String) :
    registryLookup ("DimensionInitializer_" ++ n)
      = if n = "Uniform" then some .DimensionInitializer_Uniform else none := by
  split
  · next h => subst h; rfl
  · next h =>
    rw [registryLookup_eq_none_iff]
    intro c
    simp [AllCollageCreatorComponents, String.ext_iff]
    intro h1
    exact absurd (String.ext h1) h

theorem registryLookup_positionCalculator (n : String) :
    registryLookup ("PositionCalculator_" ++ n)
      = if n = "Random" then some .PositionCalculator_Random
        else if n = "TileInOrder" then some .PositionCalculator_TileInOrder else none := by
  split
  · next h => subst h; rfl
  · next h =>
    split
    · next h2 => subst h2; rfl
    · next h2 =>
      rw [registryLookup_eq_none_iff]
      intro c
      simp [AllCollageCreatorComponents, String.ext_iff]
      exact ⟨fun h1 => absurd (String.ext h1) h, fun h1 => absurd (String.ext h1) h2⟩

theorem role_of_inputImageReader_key {n : String} {c : Component}
    (h : registryLookup ("InputImageReader_" ++ n) = some c) : c.role = .inputImageReader := by
  rw [registryLookup_inputImageReader] at h
  split at h
  · cases h; rfl
  · cases h

theorem role_of_dimensionInitializer_key {n : String} {c : Component}
    (h : registryLookup ("DimensionInitializer_" ++ n) = some c) :
    c.role = .dimensionInitializer := by
  rw [registryLookup_dimensionInitializer] at h
  split at h
  · cases h; rfl
  · cases h

theorem role_of_positionCalculator_key {n : String} {c : Component}
    (h : registryLookup ("PositionCalculator_" ++ n) = some c) :
    c.role = .positionCalculator := by
  rw [registryLookup_positionCalculator] at h
  split at h
  · cases h; rfl
  · split at h
    · cases h; rfl
    · cases h

/-- Every key the switch can produce is registered, under a renderer. -/
theorem rendererKey_registered {t key : String} (h : rendererKey t = some key) :
    ∃ c, registryLookup key = some c ∧ c.role = .collageRenderer := by
  unfold rendererKey at h
  split at h
  · cases h; exact ⟨.CollageRenderer_Raster, rfl, rfl⟩
  · split at h
    · cases h; exact ⟨.CollageRenderer_SVG, rfl, rfl⟩
    · split at h
      · cases h; exact ⟨.CollageRenderer_ImageMagickScript, rfl, rfl⟩
      · cases h

/-! ## Lemmas: lines 53-126 -/

theorem uncheckedSelect_progressMonitor (cfg : Config) :
    uncheckedSelect .progressMonitor "ProgressMonitor" cfg
      = .ok (cfg.setRole .progressMonitor .ProgressMonitor) := rfl

theorem uncheckedSelect_of_some {r : Role} {key : String} {c : Component} (cfg : Config)
    (h : registryLookup key = some c) (hr : c.role = r) :
    uncheckedSelect r key cfg = .ok (cfg.setRole r c) := by
  simp [uncheckedSelect, h, hr]

theorem checkedSelect_of_some {r : Role} {key : String} {c : Component} (msg : String)
    (cfg : Config) (h : registryLookup key = some c) (hr : c.role = r) :
    checkedSelect r key msg cfg = .ok (cfg.setRole r c) := by
  simp [checkedSelect, h, hr]

theorem checkedSelect_of_none {r : Role} {key : String} (msg : String)
    (cfg : Config) (h : registryLookup key = none) :
    checkedSelect r key msg cfg = .error ⟨cfg.trace, .fatal msg⟩ := by
  simp [checkedSelect, h]

theorem configure_case {σ : Type} (ext : Externals σ) (flags : Flags)
    (inputImages : List String) (first : String) (cfg : Config) :
    ConfigureCase ext flags inputImages first cfg
      (configure ext flags inputImages first cfg) := by
  unfold configure
  rw [uncheckedSelect_progressMonitor]
  cases h1 : registryLookup ("InputImageReader_" ++ flags.inputImageReader) with
  | none =>
    simp only [checkedSelect_of_none _ _ h1, bind, Except.bind]
    exact ConfigureCase.invalidInputImageReader h1
  | some iir =>
    have r1 := role_of_inputImageReader_key h1
    simp only [checkedSelect_of_some _ _ h1 r1, bind, Except.bind]
    cases h2 : registryLookup ("DimensionInitializer_" ++ flags.dimensionInitializer) with
    | none =>
      simp only [checkedSelect_of_none _ _ h2, Config.setRole, List.append_assoc,
        List.cons_append, List.nil_append]
      exact ConfigureCase.invalidDimensionInitializer iir h1 h2
    | some di =>
      have r2 := role_of_dimensionInitializer_key h2
      simp only [checkedSelect_of_some _ _ h2 r2]
      cases h3 : registryLookup ("PositionCalculator_" ++ flags.positionCalculator) with
      | none =>
        simp only [checkedSelect_of_none _ _ h3, Config.setRole, List.append_assoc,
          List.cons_append, List.nil_append]
        exact ConfigureCase.invalidPositionCalculator iir di h1 h2 h3
      | some pc =>
        have r3 := role_of_positionCalculator_key h3
        simp only [checkedSelect_of_some _ _ h3 r3]
        cases h4 : rendererKey
          (resolveOutputFileType ext.toLowerRune flags.outFile flags.outputFileType first).2 with
        | none =>
          simp only [selectCollageRenderer, h4, Config.setRole, List.append_assoc,
            List.cons_append, List.nil_append]
          exact ConfigureCase.unrecognizedOutputType iir di pc h1 h2 h3 h4
        | some key =>
          obtain ⟨cr, h5, r5⟩ := rendererKey_registered h4
          simp only [selectCollageRenderer, h4, uncheckedSelect_of_some _ h5 r5]
          refine ConfigureCase.constraints iir di pc cr key _ h1 h2 h3 h4 h5 ?_
          simp [Config.setRole, setRoleEvents]

theorem parseCalls_setRoleEvents (l : List (Role × Component)) :
    parseCalls (setRoleEvents l) = [] := by
  induction l with
  | nil => rfl
  | cons x xs ih =>
    simp only [parseCalls, setRoleEvents] at ih
    simp [parseCalls, setRoleEvents, Event.parsed, ih]

theorem registerCalls_setRoleEvents (l : List (Role × Component)) :
    registerCalls (setRoleEvents l) = [] := by
  induction l with
  | nil => rfl
  | cons x xs ih =>
    simp only [registerCalls, setRoleEvents] at ih
    simp [registerCalls, setRoleEvents, Event.registered, ih]

theorem createCalls_setRoleEvents (l : List (Role × Component)) :
    createCalls (setRoleEvents l) = [] := by
  induction l with
  | nil => rfl
  | cons x xs ih =>
    simp only [createCalls, setRoleEvents] at ih
    simp [createCalls, setRoleEvents, Event.created, ih]

theorem outFileSets_setRoleEvents (l : List (Role × Component)) :
    outFileSets (setRoleEvents l) = [] := by
  induction l with
  | nil => rfl
  | cons x xs ih =>
    simp only [outFileSets, setRoleEvents] at ih
    simp [outFileSets, setRoleEvents, Event.outFileSet, ih]

theorem roleSets_setRoleEvents (l : List (Role × Component)) :
    roleSets (setRoleEvents l) = l := by
  induction l with
  | nil => rfl
  | cons x xs ih =>
    simp only [roleSets, setRoleEvents] at ih
    simp [roleSets, setRoleEvents, Event.roleSet, ih]

/-- The results of lines 113-126: the calls made, and either the completed
parameters, or a fatal error, or `MustParseDims` not returning (which needs
both geometries to have parsed). -/
theorem setConstraints_spec {σ : Type} (ext : Externals σ) (flags : Flags)
    (inputImages : List String) (outFile : String) (cfg : Config) :
    ∃ t, registerCalls t = [] ∧ parseCalls t = [] ∧ createCalls t = [] ∧ roleSets t = [] ∧
      outFileSets t = [outFile] ∧
      ((∃ g1 g2 d1 d2, ext.ParseGeometry flags.aspectRatio = .ok g1 ∧
          ext.ParseGeometry flags.padding = .ok g2 ∧
          ext.MustParseDims flags.minCanvasSize = some d1 ∧
          ext.MustParseDims flags.maxCanvasSize = some d2 ∧
          setConstraints ext flags inputImages outFile cfg
            = .ok ⟨
            { cfg.params with
              inFiles := inputImages
              outFile := outFile
              aspectRatio := g1
              padding := g2
              minCanvasSize := d1
              maxCanvasSize := d2 }, cfg.trace ++ t⟩) ∨
       (∃ msg, setConstraints ext flags inputImages outFile cfg
            = .error ⟨cfg.trace ++ t, .fatal msg⟩) ∨
       ((∃ g1, ext.ParseGeometry flags.aspectRatio = .ok g1) ∧
          (∃ g2, ext.ParseGeometry flags.padding = .ok g2) ∧
          setConstraints ext flags inputImages outFile cfg
            = .error ⟨cfg.trace ++ t, .libraryAbort⟩)) := by
  unfold setConstraints
  cases h1 : ext.ParseGeometry flags.aspectRatio with
  | error e =>
    exact ⟨[.setInFiles inputImages, .setOutFile outFile], rfl, rfl, rfl, rfl, rfl,
      Or.inr (Or.inl ⟨"Error parsing aspect ratio:" ++ e, by simp⟩)⟩
  | ok g1 =>
    cases h2 : ext.ParseGeometry flags.padding with
    | error e =>
      exact ⟨[.setInFiles inputImages, .setOutFile outFile, .setAspectRatio g1],
        rfl, rfl, rfl, rfl, rfl, Or.inr (Or.inl ⟨"Error parsing padding:" ++ e, by simp⟩)⟩
    | ok g2 =>
      cases h3 : ext.MustParseDims flags.minCanvasSize with
      | none =>
        exact ⟨[.setInFiles inputImages, .setOutFile outFile, .setAspectRatio g1,
          .setPadding g2], rfl, rfl, rfl, rfl, rfl, Or.inr (Or.inr ⟨⟨_, rfl⟩, ⟨_, rfl⟩, by simp⟩)⟩
      | some d1 =>
        cases h4 : ext.MustParseDims flags.maxCanvasSize with
        | none =>
          exact ⟨[.setInFiles inputImages, .setOutFile outFile, .setAspectRatio g1,
            .setPadding g2, .setMinCanvasSize d1], rfl, rfl, rfl, rfl, rfl,
            Or.inr (Or.inr ⟨⟨_, rfl⟩, ⟨_, rfl⟩, by simp⟩)⟩
        | some d2 =>
          exact ⟨[.setInFiles inputImages, .setOutFile outFile, .setAspectRatio g1,
            .setPadding g2, .setMinCanvasSize d1, .setMaxCanvasSize d2], rfl, rfl, rfl, rfl, rfl,
            Or.inl ⟨g1, g2, d1, d2, rfl, rfl, rfl, rfl, by simp⟩⟩

/-! ## Lemmas: the parsing phase -/

theorem registerCalls_map_parseEvent (l : List (Component × Bool)) :
    registerCalls (l.map parseEvent) = [] := by
  induction l with
  | nil => rfl
  | cons x xs ih =>
    simp only [registerCalls] at ih
    simp [registerCalls, parseEvent, Event.registered, ih]

theorem parseCalls_map_parseEvent (l : List (Component × Bool)) :
    parseCalls (l.map parseEvent) = l := by
  induction l with
  | nil => rfl
  | cons x xs ih =>
    simp only [parseCalls] at ih
    simp [parseCalls, parseEvent, Event.parsed, ih]

theorem createCalls_map_parseEvent (l : List (Component × Bool)) :
    createCalls (l.map parseEvent) = [] := by
  induction l with
  | nil => rfl
  | cons x xs ih =>
    simp only [createCalls] at ih
    simp [createCalls, parseEvent, Event.created, ih]

theorem roleSets_map_parseEvent (l : List (Component × Bool)) :
    roleSets (l.map parseEvent) = [] := by
  induction l with
  | nil => rfl
  | cons x xs ih =>
    simp only [roleSets] at ih
    simp [roleSets, parseEvent, Event.roleSet, ih]

theorem outFileSets_map_parseEvent (l : List (Component × Bool)) :
    outFileSets (l.map parseEvent) = [] := by
  induction l with
  | nil => rfl
  | cons x xs ih =>
    simp only [outFileSets] at ih
    simp [outFileSets, parseEvent, Event.outFileSet, ih]

/-- The parsing phase on parameters with the five roles occupied: it calls
`ParseCustomParameters` on an initial segment of the five selected components
in the order of lines 127-131, at least on the first, stops after the first
call that returns false, and leaves `valid` true exactly when every call
returned true, in which case all five were called. -/
theorem parsingPhase_spec {σ : Type} (ext : Externals σ) (params : Parameters)
    (st : Negotiation σ) (c1 c2 c3 c4 c5 : Component)
    (h1 : params.get .progressMonitor = some c1) (h2 : params.get .inputImageReader = some c2)
    (h3 : params.get .dimensionInitializer = some c3)
    (h4 : params.get .positionCalculator = some c4)
    (h5 : params.get .collageRenderer = some c5) :
    ∃ calls st1, parsingPhase ext params st = .ok st1 ∧
      st1.trace = st.trace ++ calls.map parseEvent ∧
      calls ≠ [] ∧
      calls.map Prod.fst <+: [c1, c2, c3, c4, c5] ∧
      (∀ x ∈ calls.dropLast, x.2 = true) ∧
      (st1.valid = true ↔ ∀ x ∈ calls, x.2 = true) ∧
      (st1.valid = true → calls.map Prod.fst = [c1, c2, c3, c4, c5]) := by
  cases hb1 : (ext.ParseCustomParameters c1 params st.custom).1 with
  | false =>
    refine ⟨[(c1, false)], ?_⟩
    simp [parsingPhase, callParse, andParse, h1, h2, h3, h4, h5, hb1, bind, Except.bind,
      parseEvent, List.prefix_iff_eq_append]
  | true =>
    cases hb2 : (ext.ParseCustomParameters c2 params
      (ext.ParseCustomParameters c1 params st.custom).2).1 with
    | false =>
      refine ⟨[(c1, true), (c2, false)], ?_⟩
      simp [parsingPhase, callParse, andParse, h1, h2, h3, h4, h5, hb1, hb2, bind, Except.bind,
        parseEvent, List.prefix_iff_eq_append]
    | true =>
      cases hb3 : (ext.ParseCustomParameters c3 params
        (ext.ParseCustomParameters c2 params
          (ext.ParseCustomParameters c1 params st.custom).2).2).1 with
      | false =>
        refine ⟨[(c1, true), (c2, true), (c3, false)], ?_⟩
        simp [parsingPhase, callParse, andParse, h1, h2, h3, h4, h5, hb1, hb2, hb3, bind,
          Except.bind, parseEvent, List.prefix_iff_eq_append]
      | true =>
        cases hb4 : (ext.ParseCustomParameters c4 params
          (ext.ParseCustomParameters c3 params
            (ext.ParseCustomParameters c2 params
              (ext.ParseCustomParameters c1 params st.custom).2).2).2).1 with
        | false =>
          refine ⟨[(c1, true), (c2, true), (c3, true), (c4, false)], ?_⟩
          simp [parsingPhase, callParse, andParse, h1, h2, h3, h4, h5, hb1, hb2, hb3, hb4, bind,
            Except.bind, parseEvent, List.prefix_iff_eq_append]
        | true =>
          cases hb5 : (ext.ParseCustomParameters c5 params
            (ext.ParseCustomParameters c4 params
              (ext.ParseCustomParameters c3 params
                (ext.ParseCustomParameters c2 params
                  (ext.ParseCustomParameters c1 params st.custom).2).2).2).2).1 with
          | false =>
            refine ⟨[(c1, true), (c2, true), (c3, true), (c4, true), (c5, false)], ?_⟩
            simp [parsingPhase, callParse, andParse, h1, h2, h3, h4, h5, hb1, hb2, hb3, hb4, hb5,
              bind, Except.bind, parseEvent, List.prefix_iff_eq_append]
          | true =>
            refine ⟨[(c1, true), (c2, true), (c3, true), (c4, true), (c5, true)], ?_⟩
            simp [parsingPhase, callParse, andParse, h1, h2, h3, h4, h5, hb1, hb2, hb3, hb4, hb5,
              bind, Except.bind, parseEvent, List.prefix_iff_eq_append]

/-! ## Lemmas: the results of `configure` -/

/-- When `configure` succeeds: every lookup succeeded, the switch matched, the
geometries and dimensions parsed; the calls made are the five role setters in
source order followed by the setters of lines 113-126, and the parameters hold
what was set. -/
theorem configure_ok_spec {σ : Type} (ext : Externals σ) (flags : Flags)
    (inputImages : List String) (first : String) (cfg0 cfg : Config)
    (h : configure ext flags inputImages first cfg0 = .ok cfg) :
    ∃ iir di pc cr key t g1 g2 d1 d2,
      registryLookup ("InputImageReader_" ++ flags.inputImageReader) = some iir ∧
      registryLookup ("DimensionInitializer_" ++ flags.dimensionInitializer) = some di ∧
      registryLookup ("PositionCalculator_" ++ flags.positionCalculator) = some pc ∧
      rendererKey (resolvedType ext flags first) = some key ∧
      registryLookup key = some cr ∧
      ext.ParseGeometry flags.aspectRatio = .ok g1 ∧
      ext.ParseGeometry flags.padding = .ok g2 ∧
      ext.MustParseDims flags.minCanvasSize = some d1 ∧
      ext.MustParseDims flags.maxCanvasSize = some d2 ∧
      registerCalls t = [] ∧ parseCalls t = [] ∧ createCalls t = [] ∧ roleSets t = [] ∧
      outFileSets t = [resolvedOutFile ext flags first] ∧
      cfg.trace = cfg0.trace ++ setRoleEvents [(.progressMonitor, .ProgressMonitor),
        (.inputImageReader, iir), (.dimensionInitializer, di), (.positionCalculator, pc),
        (.collageRenderer, cr)] ++ t ∧
      cfg.params =
        { ((((cfg0.params.set .progressMonitor .ProgressMonitor).set .inputImageReader iir).set
            .dimensionInitializer di).set .positionCalculator pc).set .collageRenderer cr with
          inFiles := inputImages
          outFile := resolvedOutFile ext flags first
          aspectRatio := g1
          padding := g2
          minCanvasSize := d1
          maxCanvasSize := d2 } := by
  have hc := configure_case ext flags inputImages first cfg0
  rw [h] at hc
  cases hc with
  | constraints iir di pc cr key _ h1 h2 h3 h4 h5 h6 =>
    obtain ⟨t, t1, t2, t3, t4, t5, hres⟩ := setConstraints_spec ext flags inputImages
      (resolvedOutFile ext flags first)
      ⟨((((cfg0.params.set .progressMonitor .ProgressMonitor).set .inputImageReader iir).set
          .dimensionInitializer di).set .positionCalculator pc).set .collageRenderer cr,
        cfg0.trace ++ setRoleEvents [(.progressMonitor, .ProgressMonitor),
          (.inputImageReader, iir), (.dimensionInitializer, di), (.positionCalculator, pc),
          (.collageRenderer, cr)]⟩
    rw [resolvedOutFile, ← h6] at hres
    rcases hres with ⟨g1, g2, d1, d2, e1, e2, e3, e4, e5⟩ | ⟨msg, e5⟩ | ⟨_, _, e5⟩
    · cases e5
      exact ⟨iir, di, pc, cr, key, t, g1, g2, d1, d2, h1, h2, h3, h4, h5, e1, e2, e3, e4,
        t1, t2, t3, t4, t5, rfl, rfl⟩
    · cases e5
    · cases e5

/-- When `configure` fails: the calls made are setter calls only, and the run
ended in `log.Fatal`, or in `MustParseDims`, which is reached only after every
lookup, the switch and both geometry parses have succeeded. -/
theorem configure_error_spec {σ : Type} (ext : Externals σ) (flags : Flags)
    (inputImages : List String) (first : String) (cfg0 : Config) (r : Run)
    (h : configure ext flags inputImages first cfg0 = .error r) :
    ∃ t, r.trace = cfg0.trace ++ t ∧
      registerCalls t = [] ∧ parseCalls t = [] ∧ createCalls t = [] ∧
      ((∃ msg, r.outcome = .fatal msg) ∨
        (r.outcome = .libraryAbort ∧
          (∃ iir, registryLookup ("InputImageReader_" ++ flags.inputImageReader) = some iir) ∧
          (∃ di, registryLookup ("DimensionInitializer_" ++ flags.dimensionInitializer)
            = some di) ∧
          (∃ pc, registryLookup ("PositionCalculator_" ++ flags.positionCalculator) = some pc) ∧
          (∃ key, rendererKey (resolvedType ext flags first) = some key) ∧
          (∃ g1, ext.ParseGeometry flags.aspectRatio = .ok g1) ∧
          (∃ g2, ext.ParseGeometry flags.padding = .ok g2))) := by
  have hc := configure_case ext flags inputImages first cfg0
  rw [h] at hc
  cases hc with
  | invalidInputImageReader h1 =>
    exact ⟨_, rfl, registerCalls_setRoleEvents _, parseCalls_setRoleEvents _,
      createCalls_setRoleEvents _, Or.inl ⟨_, rfl⟩⟩
  | invalidDimensionInitializer iir h1 h2 =>
    exact ⟨_, rfl, registerCalls_setRoleEvents _, parseCalls_setRoleEvents _,
      createCalls_setRoleEvents _, Or.inl ⟨_, rfl⟩⟩
  | invalidPositionCalculator iir di h1 h2 h3 =>
    exact ⟨_, rfl, registerCalls_setRoleEvents _, parseCalls_setRoleEvents _,
      createCalls_setRoleEvents _, Or.inl ⟨_, rfl⟩⟩
  | unrecognizedOutputType iir di pc h1 h2 h3 h4 =>
    exact ⟨_, rfl, registerCalls_setRoleEvents _, parseCalls_setRoleEvents _,
      createCalls_setRoleEvents _, Or.inl ⟨_, rfl⟩⟩
  | constraints iir di pc cr key _ h1 h2 h3 h4 h5 h6 =>
    obtain ⟨t, t1, t2, t3, t4, t5, hres⟩ := setConstraints_spec ext flags inputImages
      (resolvedOutFile ext flags first)
      ⟨((((cfg0.params.set .progressMonitor .ProgressMonitor).set .inputImageReader iir).set
          .dimensionInitializer di).set .positionCalculator pc).set .collageRenderer cr,
        cfg0.trace ++ setRoleEvents [(.progressMonitor, .ProgressMonitor),
          (.inputImageReader, iir), (.dimensionInitializer, di), (.positionCalculator, pc),
          (.collageRenderer, cr)]⟩
    rw [resolvedOutFile, ← h6] at hres
    have a1 := registerCalls_setRoleEvents [(Role.progressMonitor, Component.ProgressMonitor),
          (.inputImageReader, iir), (.dimensionInitializer, di), (.positionCalculator, pc),
          (.collageRenderer, cr)]
    have a2 := parseCalls_setRoleEvents [(Role.progressMonitor, Component.ProgressMonitor),
          (.inputImageReader, iir), (.dimensionInitializer, di), (.positionCalculator, pc),
          (.collageRenderer, cr)]
    have a3 := createCalls_setRoleEvents [(Role.progressMonitor, Component.ProgressMonitor),
          (.inputImageReader, iir), (.dimensionInitializer, di), (.positionCalculator, pc),
          (.collageRenderer, cr)]
    simp only [registerCalls, parseCalls, createCalls] at a1 a2 a3 t1 t2 t3
    rcases hres with ⟨g1, g2, d1, d2, e1, e2, e3, e4, e5⟩ | ⟨msg, e5⟩ | ⟨e1, e2, e5⟩
    · cases e5
    · cases e5
      refine ⟨setRoleEvents [(.progressMonitor, .ProgressMonitor),
          (.inputImageReader, iir), (.dimensionInitializer, di), (.positionCalculator, pc),
          (.collageRenderer, cr)] ++ t, by simp, ?_, ?_, ?_, Or.inl ⟨_, rfl⟩⟩
      · simp only [registerCalls, List.filterMap_append, a1, t1, List.append_nil]
      · simp only [parseCalls, List.filterMap_append, a2, t2, List.append_nil]
      · simp only [createCalls, List.filterMap_append, a3, t3, List.append_nil]
    · cases e5
      refine ⟨setRoleEvents [(.progressMonitor, .ProgressMonitor),
          (.inputImageReader, iir), (.dimensionInitializer, di), (.positionCalculator, pc),
          (.collageRenderer, cr)] ++ t, by simp, ?_, ?_, ?_,
          Or.inr ⟨rfl, ⟨_, h1⟩, ⟨_, h2⟩, ⟨_, h3⟩, ⟨_, h4⟩, e1, e2⟩⟩
      · simp only [registerCalls, List.filterMap_append, a1, t1, List.append_nil]
      · simp only [parseCalls, List.filterMap_append, a2, t2, List.append_nil]
      · simp only [createCalls, List.filterMap_append, a3, t3, List.append_nil]

/-! ## Lemmas: the shape of a run of `main` -/

theorem main_case {σ : Type} (ext : Externals σ) (order : List Component) (flags : Flags)
    (inputImages : List String) (s0 : σ) :
    MainCase ext order flags inputImages (main ext order flags inputImages s0) := by
  obtain ⟨regCalls, r1, r2, r3, r4, r5⟩ :=
    registrationLoop_calls ext Parameters_init order ⟨true, s0, []⟩ rfl
  simp only [List.nil_append] at r1
  unfold main
  generalize registrationLoop ext Parameters_init order ⟨true, s0, []⟩ = reg at r1 r4 r5 ⊢
  obtain ⟨v, c, tr⟩ := reg
  simp only at r1 r4 r5 ⊢
  subst r1
  cases v with
  | false =>
    simp only [Bool.not_false, if_true]
    refine MainCase.registrationFailed regCalls r2 r3 ?_
    by_contra hcon
    push_neg at hcon
    have : ∀ x ∈ regCalls, x.2 = true := fun x hx => by simpa using hcon x hx
    exact absurd (r4.2 this) (by simp)
  | true =>
    have hall := r4.1 rfl
    have hord := r5 rfl
    simp only [Bool.not_true, Bool.false_eq_true, if_false]
    cases inputImages with
    | nil =>
      exact MainCase.noInputImage regCalls hall hord rfl
    | cons first rest =>
      simp only [mainBody]
      cases hcfg : configure ext flags (first :: rest) first
          ⟨Parameters_init, regCalls.map registerEvent⟩ with
      | error r =>
        simp only [bind, Except.bind]
        exact MainCase.configureFailed regCalls hall hord first rest rfl r hcfg
      | ok cfg =>
        obtain ⟨iir, di, pc, cr, key, t, g1, g2, d1, d2, h1, h2, h3, h4, h5, _, _, _, _,
          _, _, _, _, _, htr, hpar⟩ := configure_ok_spec ext flags _ first _ cfg hcfg
        have hget : ∀ r, cfg.params.get r = match r with
            | .progressMonitor => some .ProgressMonitor
            | .inputImageReader => some iir
            | .dimensionInitializer => some di
            | .positionCalculator => some pc
            | .collageRenderer => some cr := by
          intro r
          rw [hpar]
          cases r <;> rfl
        obtain ⟨calls, st1, p1, p2, p3, p4, p5, p6, p7⟩ := parsingPhase_spec ext cfg.params
          ⟨true, c, cfg.trace⟩
          .ProgressMonitor iir di pc cr (hget _) (hget _) (hget _) (hget _) (hget _)
        simp only [bind, Except.bind, p1]
        obtain ⟨v1, c1, tr1⟩ := st1
        simp only at p2 p6 p7 ⊢
        subst p2
        cases v1 with
        | false =>
          simp only [Bool.not_false, if_true]
          refine MainCase.parseFailed regCalls hall hord first rest rfl cfg hcfg iir di pc cr
            calls hget p3 p4 p5 ?_
          by_contra hcon
          push_neg at hcon
          have : ∀ x ∈ calls, x.2 = true := fun x hx => by simpa using hcon x hx
          exact absurd (p6.2 this) (by simp)
        | true =>
          simp only [Bool.not_true, Bool.false_eq_true, if_false]
          exact MainCase.completed regCalls hall hord first rest rfl cfg hcfg iir di pc cr
            calls hget (p7 rfl) (p6.1 rfl) c1

/-! ## Lemmas: observations on concatenated traces -/

theorem registerCalls_append (a b : List Event) :
    registerCalls (a ++ b) = registerCalls a ++ registerCalls b := by
  simp [registerCalls]

theorem parseCalls_append (a b : List Event) :
    parseCalls (a ++ b) = parseCalls a ++ parseCalls b := by
  simp [parseCalls]

theorem createCalls_append (a b : List Event) :
    createCalls (a ++ b) = createCalls a ++ createCalls b := by
  simp [createCalls]

theorem roleSets_append (a b : List Event) :
    roleSets (a ++ b) = roleSets a ++ roleSets b := by
  simp [roleSets]

theorem outFileSets_append (a b : List Event) :
    outFileSets (a ++ b) = outFileSets a ++ outFileSets b := by
  simp [outFileSets]

/-! ## C1: negotiation ordering -/

/-- C1. Negotiation ordering in `main`: in every run, whatever the components
answer, if some `RegisterCustomParameters` call returned false then no
`ParseCustomParameters` call and no `CreateCollage` call is made; and when a
`ParseCustomParameters` call is made, the trace splits into the registration
loop, in which every call returned true and the whole visiting order was
covered, followed by a part with no registration call, which holds every
`ParseCustomParameters` call. -/
theorem negotiation_ordering {σ : Type} (ext : Externals σ) (order : List Component)
    (flags : Flags) (inputImages : List String) (s0 : σ) :
    ((∃ x ∈ registerCalls (main ext order flags inputImages s0).trace, x.2 = false) →
      parseCalls (main ext order flags inputImages s0).trace = [] ∧
      createCalls (main ext order flags inputImages s0).trace = []) ∧
    (parseCalls (main ext order flags inputImages s0).trace ≠ [] →
      ∃ pre post, (main ext order flags inputImages s0).trace = pre ++ post ∧
        (∀ e ∈ pre, ∃ c, e = Event.registerCustomParameters c true) ∧
        (registerCalls pre).map Prod.fst = order ∧
        registerCalls post = [] ∧
        parseCalls post = parseCalls (main ext order flags inputImages s0).trace) := by
  have h := main_case ext order flags inputImages s0
  generalize main ext order flags inputImages s0 = run at h ⊢
  cases h with
  | registrationFailed regCalls hpre hinit hfail =>
    simp [parseCalls_map_registerEvent, createCalls_map_registerEvent]
  | noInputImage regCalls hall hord hin =>
    simp [parseCalls_map_registerEvent, createCalls_map_registerEvent]
  | configureFailed regCalls hall hord first rest hin r hcfg =>
    obtain ⟨t, e1, e2, e3, e4, _⟩ := configure_error_spec ext flags _ first _ _ hcfg
    simp only at e1
    rw [e1]
    simp only [registerCalls_append, parseCalls_append, createCalls_append,
      registerCalls_map_registerEvent, parseCalls_map_registerEvent,
      createCalls_map_registerEvent, e2, e3, e4, List.append_nil]
    simp
  | parseFailed regCalls hall hord first rest hin cfg hcfg iir di pc cr calls hget hne hseg
      hbut hfail =>
    obtain ⟨a, b, c, d, key, t, g1, g2, d1, d2, h1, h2, h3, h4, h5, _, _, _, _,
      t1, t2, t3, t4, t5, htr, hpar⟩ := configure_ok_spec ext flags _ first _ cfg hcfg
    simp only at htr
    constructor
    · rintro ⟨x, hx, hxf⟩
      exfalso
      simp only [htr, registerCalls_append, registerCalls_map_registerEvent,
        registerCalls_setRoleEvents, t1, registerCalls_map_parseEvent, List.append_nil] at hx
      have := hall x hx
      rw [hxf] at this
      cases this
    · intro _
      refine ⟨regCalls.map registerEvent, setRoleEvents [(.progressMonitor, .ProgressMonitor),
        (.inputImageReader, a), (.dimensionInitializer, b), (.positionCalculator, c),
        (.collageRenderer, d)] ++ t ++ calls.map parseEvent, ?_, ?_, ?_, ?_, ?_⟩
      · simp only [htr, List.append_assoc]
      · intro e he
        obtain ⟨x, hx, rfl⟩ := List.mem_map.1 he
        exact ⟨x.1, by rw [registerEvent, hall x hx]⟩
      · rw [registerCalls_map_registerEvent, hord]
      · simp only [registerCalls_append, registerCalls_setRoleEvents, t1,
          registerCalls_map_parseEvent, List.append_nil]
      · simp only [htr, parseCalls_append, parseCalls_map_registerEvent,
          List.nil_append, List.append_assoc]
  | completed regCalls hall hord first rest hin cfg hcfg iir di pc cr calls hget hwhole
      hall2 s =>
    obtain ⟨a, b, c, d, key, t, g1, g2, d1, d2, h1, h2, h3, h4, h5, _, _, _, _,
      t1, t2, t3, t4, t5, htr, hpar⟩ := configure_ok_spec ext flags _ first _ cfg hcfg
    simp only at htr
    have hc : registerCalls [Event.createCollage cfg.params (ext.CreateCollage cfg.params s)]
        = [] := rfl
    constructor
    · rintro ⟨x, hx, hxf⟩
      exfalso
      simp only [htr, registerCalls_append, registerCalls_map_registerEvent,
        registerCalls_setRoleEvents, t1, registerCalls_map_parseEvent, List.append_nil, hc]
        at hx
      have := hall x hx
      rw [hxf] at this
      cases this
    · intro _
      refine ⟨regCalls.map registerEvent, setRoleEvents [(.progressMonitor, .ProgressMonitor),
        (.inputImageReader, a), (.dimensionInitializer, b), (.positionCalculator, c),
        (.collageRenderer, d)] ++ t ++ calls.map parseEvent ++
          [Event.createCollage cfg.params (ext.CreateCollage cfg.params s)], ?_, ?_, ?_, ?_, ?_⟩
      · simp only [htr, List.append_assoc]
      · intro e he
        obtain ⟨x, hx, rfl⟩ := List.mem_map.1 he
        exact ⟨x.1, by rw [registerEvent, hall x hx]⟩
      · rw [registerCalls_map_registerEvent, hord]
      · simp only [registerCalls_append, registerCalls_setRoleEvents, t1,
          registerCalls_map_parseEvent, List.append_nil, hc]
      · simp only [htr, parseCalls_append, parseCalls_map_registerEvent,
          List.nil_append, List.append_assoc]


/-- Witness of C1: the SVG renderer refuses its registration; no component is
asked to parse and the pipeline is not started. -/
theorem negotiation_ordering_witness :
    (∃ x ∈ registerCalls (main (stubExternals [.CollageRenderer_SVG] [] 0) registryComponents
        {} ["a.png"] ()).trace, x.2 = false) ∧
    parseCalls (main (stubExternals [.CollageRenderer_SVG] [] 0) registryComponents
        {} ["a.png"] ()).trace = [] ∧
    createCalls (main (stubExternals [.CollageRenderer_SVG] [] 0) registryComponents
        {} ["a.png"] ()).trace = [] :=
  ⟨by decide,
    (negotiation_ordering (stubExternals [.CollageRenderer_SVG] [] 0) registryComponents
      {} ["a.png"] ()).1 (by decide)⟩

/-! ## C2: order of the parsing phase -/

/-- Components of different roles are different. -/
theorem ne_of_role_ne {a b : Component} (h : a.role ≠ b.role) : a ≠ b :=
  fun e => h (congrArg Component.role e)

/-- The role of each selected component, from the lookups that selected it. -/
theorem roles_of_selection {n1 n2 n3 t key : String} {iir di pc cr : Component}
    (h1 : registryLookup ("InputImageReader_" ++ n1) = some iir)
    (h2 : registryLookup ("DimensionInitializer_" ++ n2) = some di)
    (h3 : registryLookup ("PositionCalculator_" ++ n3) = some pc)
    (h4 : rendererKey t = some key) (h5 : registryLookup key = some cr) :
    iir.role = .inputImageReader ∧ di.role = .dimensionInitializer ∧
      pc.role = .positionCalculator ∧ cr.role = .collageRenderer := by
  refine ⟨role_of_inputImageReader_key h1, role_of_dimensionInitializer_key h2,
    role_of_positionCalculator_key h3, ?_⟩
  obtain ⟨c, hc, hr⟩ := rendererKey_registered h4
  rw [h5] at hc
  cases hc
  exact hr

/-- What a successful `configure` started after the registration loop leaves
in the trace and in the parameters. -/
theorem configure_ok_observations {σ : Type} (ext : Externals σ) (flags : Flags)
    (inputImages : List String) (first : String) (regCalls : List (Component × Bool))
    (cfg : Config)
    (h : configure ext flags inputImages first ⟨Parameters_init, regCalls.map registerEvent⟩
      = .ok cfg) :
    ∃ iir di pc cr key,
      registryLookup ("InputImageReader_" ++ flags.inputImageReader) = some iir ∧
      registryLookup ("DimensionInitializer_" ++ flags.dimensionInitializer) = some di ∧
      registryLookup ("PositionCalculator_" ++ flags.positionCalculator) = some pc ∧
      rendererKey (resolvedType ext flags first) = some key ∧
      registryLookup key = some cr ∧
      registerCalls cfg.trace = regCalls ∧ parseCalls cfg.trace = [] ∧
      createCalls cfg.trace = [] ∧
      roleSets cfg.trace = [(.progressMonitor, .ProgressMonitor), (.inputImageReader, iir),
        (.dimensionInitializer, di), (.positionCalculator, pc), (.collageRenderer, cr)] ∧
      outFileSets cfg.trace = [resolvedOutFile ext flags first] ∧
      (∀ r, cfg.params.get r = match r with
        | .progressMonitor => some .ProgressMonitor
        | .inputImageReader => some iir
        | .dimensionInitializer => some di
        | .positionCalculator => some pc
        | .collageRenderer => some cr) := by
  obtain ⟨a, b, c, d, key, t, g1, g2, d1, d2, h1, h2, h3, h4, h5, _, _, _, _,
    t1, t2, t3, t4, t5, htr, hpar⟩ := configure_ok_spec ext flags _ first _ cfg h
  simp only at htr
  refine ⟨a, b, c, d, key, h1, h2, h3, h4, h5, ?_, ?_, ?_, ?_, ?_, ?_⟩
  · simp only [htr, registerCalls_append, registerCalls_map_registerEvent,
      registerCalls_setRoleEvents, t1, List.append_nil]
  · simp only [htr, parseCalls_append, parseCalls_map_registerEvent,
      parseCalls_setRoleEvents, t2, List.append_nil]
  · simp only [htr, createCalls_append, createCalls_map_registerEvent,
      createCalls_setRoleEvents, t3, List.append_nil]
  · simp only [htr, roleSets_append, roleSets_map_registerEvent,
      roleSets_setRoleEvents, t4, List.append_nil, List.nil_append]
  · simp only [htr, outFileSets_append, outFileSets_map_registerEvent,
      outFileSets_setRoleEvents, t5, List.append_nil, List.nil_append]
  · intro r
    rw [hpar]
    cases r <;> rfl

/-- What a failed `configure` started after the registration loop leaves in
the trace. -/
theorem configure_error_observations {σ : Type} (ext : Externals σ) (flags : Flags)
    (inputImages : List String) (first : String) (regCalls : List (Component × Bool))
    (r : Run)
    (h : configure ext flags inputImages first ⟨Parameters_init, regCalls.map registerEvent⟩
      = .error r) :
    registerCalls r.trace = regCalls ∧ parseCalls r.trace = [] ∧ createCalls r.trace = [] := by
  obtain ⟨t, e1, e2, e3, e4, _⟩ := configure_error_spec ext flags _ first _ r h
  simp only at e1
  refine ⟨?_, ?_, ?_⟩
  · simp only [e1, registerCalls_append, registerCalls_map_registerEvent, e2, List.append_nil]
  · simp only [e1, parseCalls_append, parseCalls_map_registerEvent, e3, List.append_nil]
  · simp only [e1, createCalls_append, createCalls_map_registerEvent, e4, List.append_nil]

/-- C2. Parsing phase order in `main`: in every run, either no
`ParseCustomParameters` call is made, or the five role setters were called
once each, in source order, with components `c1 .. c5`, and the
`ParseCustomParameters` calls are made on an initial segment of
`[c1, c2, c3, c4, c5]` (monitor, reader, dimension initializer, position
calculator, renderer), which are pairwise different, so each is called at most
once and nothing else is called; every call but the last returned true; and
when every call returned true the calls cover the whole sequence. -/
theorem parsing_phase_order {σ : Type} (ext : Externals σ) (order : List Component)
    (flags : Flags) (inputImages : List String) (s0 : σ) :
    parseCalls (main ext order flags inputImages s0).trace = [] ∨
    ∃ c1 c2 c3 c4 c5 : Component,
      roleSets (main ext order flags inputImages s0).trace
        = [(.progressMonitor, c1), (.inputImageReader, c2), (.dimensionInitializer, c3),
            (.positionCalculator, c4), (.collageRenderer, c5)] ∧
      (parseCalls (main ext order flags inputImages s0).trace).map Prod.fst
        <+: [c1, c2, c3, c4, c5] ∧
      [c1, c2, c3, c4, c5].Nodup ∧
      (∀ x ∈ (parseCalls (main ext order flags inputImages s0).trace).dropLast, x.2 = true) ∧
      ((∀ x ∈ parseCalls (main ext order flags inputImages s0).trace, x.2 = true) →
        (parseCalls (main ext order flags inputImages s0).trace).map Prod.fst
          = [c1, c2, c3, c4, c5]) := by
  have h := main_case ext order flags inputImages s0
  generalize main ext order flags inputImages s0 = run at h ⊢
  cases h with
  | registrationFailed regCalls hpre hinit hfail =>
    exact Or.inl (parseCalls_map_registerEvent _)
  | noInputImage regCalls hall hord hin =>
    exact Or.inl (parseCalls_map_registerEvent _)
  | configureFailed regCalls hall hord first rest hin r hcfg =>
    exact Or.inl (configure_error_observations ext flags _ first regCalls _ hcfg).2.1
  | parseFailed regCalls hall hord first rest hin cfg hcfg iir di pc cr calls hget hne hseg
      hbut hfail =>
    obtain ⟨a, b, c, d, key, h1, h2, h3, h4, h5, o1, o2, o3, o4, o5, o6⟩ :=
      configure_ok_observations ext flags _ first regCalls cfg hcfg
    obtain ⟨q1, q2, q3, q4⟩ := roles_of_selection h1 h2 h3 h4 h5
    have e2 := (hget .inputImageReader).symm.trans (o6 .inputImageReader)
    have e3 := (hget .dimensionInitializer).symm.trans (o6 .dimensionInitializer)
    have e4 := (hget .positionCalculator).symm.trans (o6 .positionCalculator)
    have e5 := (hget .collageRenderer).symm.trans (o6 .collageRenderer)
    simp only [Option.some.injEq] at e2 e3 e4 e5
    subst e2 e3 e4 e5
    right
    refine ⟨.ProgressMonitor, iir, di, pc, cr, ?_, ?_, ?_, ?_, ?_⟩
    · simp only [roleSets_append, o4, roleSets_map_parseEvent, List.append_nil]
    · simpa only [parseCalls_append, o2, parseCalls_map_parseEvent, List.nil_append] using hseg
    · have p1 : Component.ProgressMonitor.role = .progressMonitor := rfl
      simp only [List.nodup_cons, List.mem_cons, List.mem_singleton, List.not_mem_nil,
        List.nodup_nil, not_or, and_true, not_false_eq_true]
      refine ⟨⟨?_, ?_, ?_, ?_⟩, ⟨?_, ?_, ?_⟩, ⟨?_, ?_⟩, ?_⟩ <;>
        exact ne_of_role_ne (by simp [p1, q1, q2, q3, q4])
    · simpa only [parseCalls_append, o2, parseCalls_map_parseEvent, List.nil_append] using hbut
    · intro hall2
      exfalso
      obtain ⟨x, hx, hxf⟩ := hfail
      have := hall2 x (by
        simpa only [parseCalls_append, o2, parseCalls_map_parseEvent, List.nil_append] using hx)
      rw [hxf] at this
      cases this
  | completed regCalls hall hord first rest hin cfg hcfg iir di pc cr calls hget hwhole
      hall2 s =>
    obtain ⟨a, b, c, d, key, h1, h2, h3, h4, h5, o1, o2, o3, o4, o5, o6⟩ :=
      configure_ok_observations ext flags _ first regCalls cfg hcfg
    obtain ⟨q1, q2, q3, q4⟩ := roles_of_selection h1 h2 h3 h4 h5
    have e2 := (hget .inputImageReader).symm.trans (o6 .inputImageReader)
    have e3 := (hget .dimensionInitializer).symm.trans (o6 .dimensionInitializer)
    have e4 := (hget .positionCalculator).symm.trans (o6 .positionCalculator)
    have e5 := (hget .collageRenderer).symm.trans (o6 .collageRenderer)
    simp only [Option.some.injEq] at e2 e3 e4 e5
    subst e2 e3 e4 e5
    have hc : parseCalls [Event.createCollage cfg.params (ext.CreateCollage cfg.params s)]
        = [] := rfl
    have hr : roleSets [Event.createCollage cfg.params (ext.CreateCollage cfg.params s)]
        = [] := rfl
    have hp : parseCalls (cfg.trace ++ calls.map parseEvent ++
        [Event.createCollage cfg.params (ext.CreateCollage cfg.params s)]) = calls := by
      simp only [parseCalls_append, o2, parseCalls_map_parseEvent, List.nil_append, hc,
        List.append_nil]
    right
    refine ⟨.ProgressMonitor, iir, di, pc, cr, ?_, ?_, ?_, ?_, ?_⟩
    · simp only [roleSets_append, o4, roleSets_map_parseEvent, List.append_nil, hr]
    · simp only [hp, hwhole]
      exact List.prefix_refl _
    · have p1 : Component.ProgressMonitor.role = .progressMonitor := rfl
      simp only [List.nodup_cons, List.mem_cons, List.mem_singleton, List.not_mem_nil,
        List.nodup_nil, not_or, and_true, not_false_eq_true]
      refine ⟨⟨?_, ?_, ?_, ?_⟩, ⟨?_, ?_, ?_⟩, ⟨?_, ?_⟩, ?_⟩ <;>
        exact ne_of_role_ne (by simp [p1, q1, q2, q3, q4])
    · simp only [hp]
      intro x hx
      exact hall2 x (List.mem_of_mem_dropLast hx)
    · intro _
      simp only [hp, hwhole]


/-- Witness of C2: the dimension initializer refuses to parse; the monitor,
the reader and the dimension initializer were asked, in that order, and no
one else. -/
theorem parsing_phase_order_witness :
    parseCalls (main (stubExternals [] [.DimensionInitializer_Uniform] 0) registryComponents
        {} ["a.png"] ()).trace
      = [(.ProgressMonitor, true), (.InputImageReader_Raster, true),
          (.DimensionInitializer_Uniform, false)] ∧
    (parseCalls (main (stubExternals [] [.DimensionInitializer_Uniform] 0) registryComponents
        {} ["a.png"] ()).trace = [] ∨
      ∃ c1 c2 c3 c4 c5 : Component,
        roleSets (main (stubExternals [] [.DimensionInitializer_Uniform] 0) registryComponents
            {} ["a.png"] ()).trace
          = [(.progressMonitor, c1), (.inputImageReader, c2), (.dimensionInitializer, c3),
              (.positionCalculator, c4), (.collageRenderer, c5)] ∧
        (parseCalls (main (stubExternals [] [.DimensionInitializer_Uniform] 0)
            registryComponents {} ["a.png"] ()).trace).map Prod.fst
          <+: [c1, c2, c3, c4, c5] ∧
        [c1, c2, c3, c4, c5].Nodup ∧
        (∀ x ∈ (parseCalls (main (stubExternals [] [.DimensionInitializer_Uniform] 0)
            registryComponents {} ["a.png"] ()).trace).dropLast, x.2 = true) ∧
        ((∀ x ∈ parseCalls (main (stubExternals [] [.DimensionInitializer_Uniform] 0)
            registryComponents {} ["a.png"] ()).trace, x.2 = true) →
          (parseCalls (main (stubExternals [] [.DimensionInitializer_Uniform] 0)
            registryComponents {} ["a.png"] ()).trace).map Prod.fst
            = [c1, c2, c3, c4, c5])) :=
  ⟨by decide,
    parsing_phase_order (stubExternals [] [.DimensionInitializer_Uniform] 0) registryComponents
      {} ["a.png"] ()⟩

/-! ## C3: a parse failure aborts before the pipeline -/

/-- C3. Parse failure aborts before the pipeline: in every run in which some
`ParseCustomParameters` call returned false, `CreateCollage` is not called and
the run ends in `log.Fatal("Error parsing custom parameters")`; and whenever
`CreateCollage` is called, five `ParseCustomParameters` calls were made and
all of them returned true. -/
theorem parse_failure_aborts {σ : Type} (ext : Externals σ) (order : List Component)
    (flags : Flags) (inputImages : List String) (s0 : σ) :
    ((∃ x ∈ parseCalls (main ext order flags inputImages s0).trace, x.2 = false) →
      createCalls (main ext order flags inputImages s0).trace = [] ∧
      (main ext order flags inputImages s0).outcome
        = .fatal "Error parsing custom parameters") ∧
    (createCalls (main ext order flags inputImages s0).trace ≠ [] →
      (parseCalls (main ext order flags inputImages s0).trace).length = 5 ∧
      ∀ x ∈ parseCalls (main ext order flags inputImages s0).trace, x.2 = true) := by
  have h := main_case ext order flags inputImages s0
  generalize main ext order flags inputImages s0 = run at h ⊢
  cases h with
  | registrationFailed regCalls hpre hinit hfail =>
    simp [parseCalls_map_registerEvent, createCalls_map_registerEvent]
  | noInputImage regCalls hall hord hin =>
    simp [parseCalls_map_registerEvent, createCalls_map_registerEvent]
  | configureFailed regCalls hall hord first rest hin r hcfg =>
    obtain ⟨_, e2, e3⟩ := configure_error_observations ext flags _ first regCalls _ hcfg
    simp [e2, e3]
  | parseFailed regCalls hall hord first rest hin cfg hcfg iir di pc cr calls hget hne hseg
      hbut hfail =>
    obtain ⟨a, b, c, d, key, h1, h2, h3, h4, h5, o1, o2, o3, o4, o5, o6⟩ :=
      configure_ok_observations ext flags _ first regCalls cfg hcfg
    simp [createCalls_append, o3, createCalls_map_parseEvent]
  | completed regCalls hall hord first rest hin cfg hcfg iir di pc cr calls hget hwhole
      hall2 s =>
    obtain ⟨a, b, c, d, key, h1, h2, h3, h4, h5, o1, o2, o3, o4, o5, o6⟩ :=
      configure_ok_observations ext flags _ first regCalls cfg hcfg
    have hc : parseCalls [Event.createCollage cfg.params (ext.CreateCollage cfg.params s)]
        = [] := rfl
    have hp : parseCalls (cfg.trace ++ calls.map parseEvent ++
        [Event.createCollage cfg.params (ext.CreateCollage cfg.params s)]) = calls := by
      simp only [parseCalls_append, o2, parseCalls_map_parseEvent, List.nil_append, hc,
        List.append_nil]
    have hlen : calls.length = 5 := by
      have := congrArg List.length hwhole
      simpa using this
    simp only [hp]
    refine ⟨?_, fun _ => ⟨hlen, hall2⟩⟩
    rintro ⟨x, hx, hxf⟩
    have := hall2 x hx
    rw [hxf] at this
    cases this


/-- Witness of C3: the raster renderer refuses to parse; the run ends in
`log.Fatal` and the pipeline is not started. -/
theorem parse_failure_aborts_witness :
    (∃ x ∈ parseCalls (main (stubExternals [] [.CollageRenderer_Raster] 0) registryComponents
        {} ["a.png"] ()).trace, x.2 = false) ∧
    createCalls (main (stubExternals [] [.CollageRenderer_Raster] 0) registryComponents
        {} ["a.png"] ()).trace = [] ∧
    (main (stubExternals [] [.CollageRenderer_Raster] 0) registryComponents
        {} ["a.png"] ()).outcome = .fatal "Error parsing custom parameters" :=
  ⟨by decide,
    (parse_failure_aborts (stubExternals [] [.CollageRenderer_Raster] 0) registryComponents
      {} ["a.png"] ()).1 (by decide)⟩

/-! ## C5: the registration phase -/

/-- Every component occurs exactly once among the values of the registry. -/
theorem count_registryComponents (c : Component) : registryComponents.count c = 1 := by
  cases c <;> decide

/-- C5 (amended). Registration phase: in every run of `main`, whatever order
the registry is visited in, `RegisterCustomParameters` is invoked on an initial
segment of the visiting order, every call but the last returned true (so no
call follows a call that returned false), and when every call returned true
the calls cover the whole visiting order, that is each of the eight components
of `AllCollageCreatorComponents` exactly once. -/
theorem registration_phase_calls {σ : Type} (ext : Externals σ) (order : List Component)
    (flags : Flags) (inputImages : List String) (s0 : σ)
    (hperm : order.Perm registryComponents) :
    (registerCalls (main ext order flags inputImages s0).trace).map Prod.fst <+: order ∧
    (∀ x ∈ (registerCalls (main ext order flags inputImages s0).trace).dropLast,
      x.2 = true) ∧
    ((∀ x ∈ registerCalls (main ext order flags inputImages s0).trace, x.2 = true) →
      (registerCalls (main ext order flags inputImages s0).trace).map Prod.fst = order ∧
      ∀ c : Component,
        ((registerCalls (main ext order flags inputImages s0).trace).map Prod.fst).count c
          = 1) := by
  have hcount : ∀ c : Component, order.count c = 1 := fun c => by
    rw [hperm.count_eq, count_registryComponents]
  have h := main_case ext order flags inputImages s0
  generalize main ext order flags inputImages s0 = run at h ⊢
  have key : ∀ regCalls : List (Component × Bool), registerCalls run.trace = regCalls →
      regCalls.map Prod.fst <+: order → (∀ x ∈ regCalls.dropLast, x.2 = true) →
      ((∀ x ∈ regCalls, x.2 = true) → regCalls.map Prod.fst = order) →
      (registerCalls run.trace).map Prod.fst <+: order ∧
      (∀ x ∈ (registerCalls run.trace).dropLast, x.2 = true) ∧
      ((∀ x ∈ registerCalls run.trace, x.2 = true) →
        (registerCalls run.trace).map Prod.fst = order ∧
        ∀ c : Component, ((registerCalls run.trace).map Prod.fst).count c = 1) := by
    intro regCalls e a1 a2 a3
    rw [e]
    refine ⟨a1, a2, fun hall => ⟨a3 hall, fun c => ?_⟩⟩
    rw [a3 hall]
    exact hcount c
  cases h with
  | registrationFailed regCalls hpre hinit hfail =>
    refine key regCalls (registerCalls_map_registerEvent _) hpre hinit ?_
    intro hall
    obtain ⟨x, hx, hxf⟩ := hfail
    have := hall x hx
    rw [hxf] at this
    cases this
  | noInputImage regCalls hall hord hin =>
    exact key regCalls (registerCalls_map_registerEvent _) (hord ▸ List.prefix_refl _)
      (fun x hx => hall x (List.mem_of_mem_dropLast hx)) (fun _ => hord)
  | configureFailed regCalls hall hord first rest hin r hcfg =>
    obtain ⟨e1, _, _⟩ := configure_error_observations ext flags _ first regCalls _ hcfg
    exact key regCalls e1 (hord ▸ List.prefix_refl _)
      (fun x hx => hall x (List.mem_of_mem_dropLast hx)) (fun _ => hord)
  | parseFailed regCalls hall hord first rest hin cfg hcfg iir di pc cr calls hget hne hseg
      hbut hfail =>
    obtain ⟨a, b, c, d, k, h1, h2, h3, h4, h5, o1, o2, o3, o4, o5, o6⟩ :=
      configure_ok_observations ext flags _ first regCalls cfg hcfg
    refine key regCalls ?_ (hord ▸ List.prefix_refl _)
      (fun x hx => hall x (List.mem_of_mem_dropLast hx)) (fun _ => hord)
    simp only [registerCalls_append, o1, registerCalls_map_parseEvent, List.append_nil]
  | completed regCalls hall hord first rest hin cfg hcfg iir di pc cr calls hget hwhole
      hall2 s =>
    obtain ⟨a, b, c, d, k, h1, h2, h3, h4, h5, o1, o2, o3, o4, o5, o6⟩ :=
      configure_ok_observations ext flags _ first regCalls cfg hcfg
    have hc : registerCalls [Event.createCollage cfg.params (ext.CreateCollage cfg.params s)]
        = [] := rfl
    refine key regCalls ?_ (hord ▸ List.prefix_refl _)
      (fun x hx => hall x (List.mem_of_mem_dropLast hx)) (fun _ => hord)
    simp only [registerCalls_append, o1, registerCalls_map_parseEvent, List.append_nil, hc]

/-- Witness of `registration_phase_calls`: the registry visited in source
order, every component accepting. -/
theorem registration_phase_calls_witness :
    (registerCalls
        (main (stubExternals [] [] 0) registryComponents {} ["a.png"] ()).trace).map Prod.fst
      <+: registryComponents ∧
    (∀ x ∈ (registerCalls
        (main (stubExternals [] [] 0) registryComponents {} ["a.png"] ()).trace).dropLast,
      x.2 = true) ∧
    ((∀ x ∈ registerCalls
        (main (stubExternals [] [] 0) registryComponents {} ["a.png"] ()).trace, x.2 = true) →
      (registerCalls
        (main (stubExternals [] [] 0) registryComponents {} ["a.png"] ()).trace).map Prod.fst
          = registryComponents ∧
      ∀ c : Component,
        ((registerCalls
          (main (stubExternals [] [] 0) registryComponents {} ["a.png"] ()).trace).map
            Prod.fst).count c = 1) :=
  registration_phase_calls (stubExternals [] [] 0) registryComponents {} ["a.png"] ()
    (List.Perm.refl _)

/-- C5, counterexample. With the registry visited in source order and the
progress monitor refusing its registration, `RegisterCustomParameters` is
invoked on the progress monitor only: the raster image reader, a component of
the registry, is never asked. -/
theorem registration_stops_at_first_failure :
    registerCalls
        (main (stubExternals [.ProgressMonitor] [] 0) registryComponents {} ["a.png"] ()).trace
      = [(.ProgressMonitor, false)] ∧
    Component.InputImageReader_Raster ∈ registryComponents ∧
    Component.InputImageReader_Raster ∉
      (registerCalls
        (main (stubExternals [.ProgressMonitor] [] 0) registryComponents {} ["a.png"]
          ()).trace).map Prod.fst := by
  decide

/-! ## C6: role occupancy -/

/-- Every key the switch can produce carries the renderer prefix. -/
theorem rendererKey_hasKeyPrefix {t key : String} (h : rendererKey t = some key) :
    hasKeyPrefix .collageRenderer key := by
  unfold rendererKey at h
  split at h
  · cases h; exact ⟨"Raster".data, rfl⟩
  · split at h
    · cases h; exact ⟨"SVG".data, rfl⟩
    · split at h
      · cases h; exact ⟨"ImageMagickScript".data, rfl⟩
      · cases h

/-- C6. Role occupancy: on every run of `main` that reaches the parsing phase
or `CreateCollage`, the role setters were called exactly five times, once for
each role, in the order monitor, reader, dimension initializer, position
calculator, renderer; each component set implements the role it was set for
and is stored in `AllCollageCreatorComponents` under a key that carries the
key prefix of that role; the parameters handed to `CreateCollage` have every
role occupied, by the component that was set; the run does not end in a
panic; and the four keys whose lookup is used without an `ok` check are keys
registered by `init`. -/
theorem role_occupancy {σ : Type} (ext : Externals σ) (order : List Component)
    (flags : Flags) (inputImages : List String) (s0 : σ)
    (h : parseCalls (main ext order flags inputImages s0).trace ≠ [] ∨
      createCalls (main ext order flags inputImages s0).trace ≠ []) :
    (∃ c1 c2 c3 c4 c5 : Component,
      roleSets (main ext order flags inputImages s0).trace
        = [(.progressMonitor, c1), (.inputImageReader, c2), (.dimensionInitializer, c3),
            (.positionCalculator, c4), (.collageRenderer, c5)]) ∧
    (∀ x ∈ roleSets (main ext order flags inputImages s0).trace,
      x.2.role = x.1 ∧ ∃ key, registryLookup key = some x.2 ∧ hasKeyPrefix x.1 key) ∧
    (∀ x ∈ createCalls (main ext order flags inputImages s0).trace,
      ∀ r : Role, ∃ c, x.1.get r = some c ∧
        (r, c) ∈ roleSets (main ext order flags inputImages s0).trace) ∧
    (main ext order flags inputImages s0).outcome ≠ .panic ∧
    registryLookup "ProgressMonitor" = some .ProgressMonitor ∧
    registryLookup "CollageRenderer_Raster" = some .CollageRenderer_Raster ∧
    registryLookup "CollageRenderer_SVG" = some .CollageRenderer_SVG ∧
    registryLookup "CollageRenderer_ImageMagickScript"
      = some .CollageRenderer_ImageMagickScript := by
  have hm := main_case ext order flags inputImages s0
  generalize main ext order flags inputImages s0 = run at hm h ⊢
  have sel : ∀ (iir di pc cr : Component) (key : String),
      registryLookup ("InputImageReader_" ++ flags.inputImageReader) = some iir →
      registryLookup ("DimensionInitializer_" ++ flags.dimensionInitializer) = some di →
      registryLookup ("PositionCalculator_" ++ flags.positionCalculator) = some pc →
      ∀ t, rendererKey t = some key → registryLookup key = some cr →
      ∀ x ∈ [(Role.progressMonitor, Component.ProgressMonitor), (.inputImageReader, iir),
        (.dimensionInitializer, di), (.positionCalculator, pc), (.collageRenderer, cr)],
        x.2.role = x.1 ∧ ∃ key, registryLookup key = some x.2 ∧ hasKeyPrefix x.1 key := by
    intro iir di pc cr key h1 h2 h3 t h4 h5 x hx
    obtain ⟨q1, q2, q3, q4⟩ := roles_of_selection h1 h2 h3 h4 h5
    simp only [List.mem_cons, List.mem_singleton, List.not_mem_nil, or_false] at hx
    rcases hx with rfl | rfl | rfl | rfl | rfl
    · exact ⟨rfl, "ProgressMonitor", rfl, List.prefix_refl _⟩
    · exact ⟨q1, _, h1, ⟨flags.inputImageReader.data, by simp [Role.keyPrefix]⟩⟩
    · exact ⟨q2, _, h2, ⟨flags.dimensionInitializer.data, by simp [Role.keyPrefix]⟩⟩
    · exact ⟨q3, _, h3, ⟨flags.positionCalculator.data, by simp [Role.keyPrefix]⟩⟩
    · exact ⟨q4, _, h5, rendererKey_hasKeyPrefix h4⟩
  refine ⟨?_, ?_, ?_, ?_, rfl, rfl, rfl, rfl⟩
  all_goals
    cases hm with
    | registrationFailed regCalls hpre hinit hfail =>
      simp [parseCalls_map_registerEvent, createCalls_map_registerEvent] at h
    | noInputImage regCalls hall hord hin =>
      simp [parseCalls_map_registerEvent, createCalls_map_registerEvent] at h
    | configureFailed regCalls hall hord first rest hin r hcfg =>
      obtain ⟨_, e2, e3⟩ := configure_error_observations ext flags _ first regCalls _ hcfg
      simp [e2, e3] at h
    | parseFailed regCalls hall hord first rest hin cfg hcfg iir di pc cr calls hget hne hseg
        hbut hfail =>
      obtain ⟨a, b, c, d, key, h1, h2, h3, h4, h5, o1, o2, o3, o4, o5, o6⟩ :=
        configure_ok_observations ext flags _ first regCalls cfg hcfg
      simp only [roleSets_append, o4, roleSets_map_parseEvent, List.append_nil,
        createCalls_append, o3, createCalls_map_parseEvent]
      first
        | exact ⟨_, _, _, _, _, rfl⟩
        | exact sel a b c d key h1 h2 h3 _ h4 h5
        | simp
    | completed regCalls hall hord first rest hin cfg hcfg iir di pc cr calls hget hwhole
        hall2 s =>
      obtain ⟨a, b, c, d, key, h1, h2, h3, h4, h5, o1, o2, o3, o4, o5, o6⟩ :=
        configure_ok_observations ext flags _ first regCalls cfg hcfg
      have hr : roleSets [Event.createCollage cfg.params (ext.CreateCollage cfg.params s)]
          = [] := rfl
      have hc : createCalls [Event.createCollage cfg.params (ext.CreateCollage cfg.params s)]
          = [(cfg.params, ext.CreateCollage cfg.params s)] := rfl
      simp only [roleSets_append, o4, roleSets_map_parseEvent, List.append_nil, hr,
        createCalls_append, o3, createCalls_map_parseEvent, hc, List.nil_append]
      first
        | exact ⟨_, _, _, _, _, rfl⟩
        | exact sel a b c d key h1 h2 h3 _ h4 h5
        | (intro x hx r
           simp only [List.mem_singleton] at hx
           subst hx
           rw [o6 r]
           cases r <;> simp)
        | simp

/-- Witness of `role_occupancy`: a run with the default flags and one input
image, every component accepting. -/
theorem role_occupancy_witness :
    (∃ c1 c2 c3 c4 c5 : Component,
      roleSets (main (stubExternals [] [] 0) registryComponents {} ["a.png"] ()).trace
        = [(.progressMonitor, c1), (.inputImageReader, c2), (.dimensionInitializer, c3),
            (.positionCalculator, c4), (.collageRenderer, c5)]) ∧
    (∀ x ∈ roleSets (main (stubExternals [] [] 0) registryComponents {} ["a.png"] ()).trace,
      x.2.role = x.1 ∧ ∃ key, registryLookup key = some x.2 ∧ hasKeyPrefix x.1 key) ∧
    (∀ x ∈ createCalls (main (stubExternals [] [] 0) registryComponents {} ["a.png"] ()).trace,
      ∀ r : Role, ∃ c, x.1.get r = some c ∧
        (r, c) ∈ roleSets
          (main (stubExternals [] [] 0) registryComponents {} ["a.png"] ()).trace) ∧
    (main (stubExternals [] [] 0) registryComponents {} ["a.png"] ()).outcome ≠ .panic ∧
    registryLookup "ProgressMonitor" = some .ProgressMonitor ∧
    registryLookup "CollageRenderer_Raster" = some .CollageRenderer_Raster ∧
    registryLookup "CollageRenderer_SVG" = some .CollageRenderer_SVG ∧
    registryLookup "CollageRenderer_ImageMagickScript"
      = some .CollageRenderer_ImageMagickScript :=
  role_occupancy (stubExternals [] [] 0) registryComponents {} ["a.png"] ()
    (Or.inr (by decide))

/-! ## C7: exit status -/

/-- C7 (amended). Exit status of `main`: every run that fails before the
pipeline (a registration returning false, no input image, an unknown reader,
dimension initializer or position calculator variant, an unrecognized output
type, a `ParseGeometry` error for `-aspect` or `-padding`, a
`ParseCustomParameters` returning false) ends in `log.Fatal` (exit status 1)
without calling `CreateCollage`; in every run `CreateCollage` is called at
most once, and it is called exactly when the run ends in `os.Exit`, whose
argument is then the value `CreateCollage` returned, so that the exit status
is that value modulo 256; a run ends with status 0 only if `CreateCollage`
was called and returned a multiple of 256. -/
theorem exit_status {σ : Type} (ext : Externals σ) (order : List Component)
    (flags : Flags) (inputImages : List String) (s0 : σ) :
    (((∃ x ∈ registerCalls (main ext order flags inputImages s0).trace, x.2 = false) ∨
        inputImages = [] ∨
        registryLookup ("InputImageReader_" ++ flags.inputImageReader) = none ∨
        registryLookup ("DimensionInitializer_" ++ flags.dimensionInitializer) = none ∨
        registryLookup ("PositionCalculator_" ++ flags.positionCalculator) = none ∨
        (∃ first rest, inputImages = first :: rest ∧
          rendererKey (resolvedType ext flags first) = none) ∨
        (∃ err, ext.ParseGeometry flags.aspectRatio = .error err) ∨
        (∃ err, ext.ParseGeometry flags.padding = .error err) ∨
        (∃ x ∈ parseCalls (main ext order flags inputImages s0).trace, x.2 = false)) →
      (∃ msg, (main ext order flags inputImages s0).outcome = .fatal msg) ∧
      (main ext order flags inputImages s0).outcome.exitStatus = some 1 ∧
      createCalls (main ext order flags inputImages s0).trace = []) ∧
    (∀ x ∈ createCalls (main ext order flags inputImages s0).trace,
      createCalls (main ext order flags inputImages s0).trace = [x] ∧
      (main ext order flags inputImages s0).outcome = .exit x.2 ∧
      (main ext order flags inputImages s0).outcome.exitStatus = some (x.2 % 256)) ∧
    (∀ n, (main ext order flags inputImages s0).outcome = .exit n →
      ∃ p, createCalls (main ext order flags inputImages s0).trace = [(p, n)]) ∧
    ((main ext order flags inputImages s0).outcome.exitStatus = some 0 →
      ∃ p n, createCalls (main ext order flags inputImages s0).trace = [(p, n)] ∧
        (main ext order flags inputImages s0).outcome = .exit n ∧ n % 256 = 0) := by
  have hm := main_case ext order flags inputImages s0
  generalize main ext order flags inputImages s0 = run at hm ⊢
  cases hm with
  | registrationFailed regCalls hpre hinit hfail =>
    simp [createCalls_map_registerEvent, Outcome.exitStatus]
  | noInputImage regCalls hall hord hin =>
    simp [createCalls_map_registerEvent, Outcome.exitStatus]
  | configureFailed regCalls hall hord first rest hin r hcfg =>
    obtain ⟨e1, e2, e3⟩ := configure_error_observations ext flags _ first regCalls _ hcfg
    obtain ⟨t, _, _, _, _, hout⟩ := configure_error_spec ext flags _ first _ _ hcfg
    rcases hout with ⟨msg, hmsg⟩ | ⟨hab, ⟨iir, h1⟩, ⟨di, h2⟩, ⟨pc, h3⟩, ⟨key, h4⟩, ⟨g1, h5⟩,
      ⟨g2, h6⟩⟩
    · simp [e3, hmsg, Outcome.exitStatus]
    · simp only [e3, hab, Outcome.exitStatus, List.not_mem_nil, false_implies, implies_true,
        true_and, and_true]
      refine ⟨?_, by simp, by simp⟩
      intro hf
      exfalso
      rcases hf with ⟨x, hx, hxf⟩ | hf | hf | hf | hf | ⟨f, r, hf, hk⟩ | ⟨e, hf⟩ | ⟨e, hf⟩ |
        ⟨x, hx, hxf⟩
      · rw [e1] at hx
        have := hall x hx
        rw [hxf] at this
        cases this
      · rw [hin] at hf; cases hf
      · rw [h1] at hf; cases hf
      · rw [h2] at hf; cases hf
      · rw [h3] at hf; cases hf
      · rw [hin] at hf
        cases hf
        rw [h4] at hk
        cases hk
      · rw [h5] at hf; cases hf
      · rw [h6] at hf; cases hf
      · rw [e2] at hx
        cases hx
  | parseFailed regCalls hall hord first rest hin cfg hcfg iir di pc cr calls hget hne hseg
      hbut hfail =>
    obtain ⟨a, b, c, d, key, h1, h2, h3, h4, h5, o1, o2, o3, o4, o5, o6⟩ :=
      configure_ok_observations ext flags _ first regCalls cfg hcfg
    simp [createCalls_append, o3, createCalls_map_parseEvent, Outcome.exitStatus]
  | completed regCalls hall hord first rest hin cfg hcfg iir di pc cr calls hget hwhole
      hall2 s =>
    obtain ⟨a, b, c, d, key, t, g1, g2, d1, d2, h1, h2, h3, h4, h5, h6, h7, _, _,
      _, _, _, _, _, _, _⟩ := configure_ok_spec ext flags _ first _ cfg hcfg
    obtain ⟨_, _, _, _, _, _, _, _, _, _, o1, o2, o3, o4, o5, o6⟩ :=
      configure_ok_observations ext flags _ first regCalls cfg hcfg
    have hc : createCalls [Event.createCollage cfg.params (ext.CreateCollage cfg.params s)]
        = [(cfg.params, ext.CreateCollage cfg.params s)] := rfl
    have hp : parseCalls [Event.createCollage cfg.params (ext.CreateCollage cfg.params s)]
        = [] := rfl
    have hr : registerCalls [Event.createCollage cfg.params (ext.CreateCollage cfg.params s)]
        = [] := rfl
    simp only [createCalls_append, o3, createCalls_map_parseEvent, hc, List.nil_append,
      Outcome.exitStatus]
    refine ⟨?_, by simp, by simp,
      fun h0 => ⟨_, _, rfl, rfl, by simpa using h0⟩⟩
    intro hf
    exfalso
    rcases hf with ⟨x, hx, hxf⟩ | hf | hf | hf | hf | ⟨f, r, hf, hk⟩ | ⟨e, hf⟩ | ⟨e, hf⟩ |
      ⟨x, hx, hxf⟩
    · simp only [registerCalls_append, o1, registerCalls_map_parseEvent, hr,
        List.append_nil] at hx
      have := hall x hx
      rw [hxf] at this
      cases this
    · rw [hin] at hf; cases hf
    · rw [h1] at hf; cases hf
    · rw [h2] at hf; cases hf
    · rw [h3] at hf; cases hf
    · rw [hin] at hf
      cases hf
      rw [h4] at hk
      cases hk
    · rw [h6] at hf; cases hf
    · rw [h7] at hf; cases hf
    · simp only [parseCalls_append, o2, parseCalls_map_parseEvent, hp, List.append_nil,
        List.nil_append] at hx
      have := hall2 x hx
      rw [hxf] at this
      cases this


/-- Witness of C7: a run that reaches the pipeline ends with the value
`CreateCollage` returned, here 3, as its exit status. -/
theorem exit_status_witness :
    (main (stubExternals [] [] 3) registryComponents {} ["a.png"] ()).outcome = .exit 3 ∧
    (main (stubExternals [] [] 3) registryComponents {} ["a.png"] ()).outcome.exitStatus
      = some 3 ∧
    ∃ p, createCalls (main (stubExternals [] [] 3) registryComponents {} ["a.png"] ()).trace
      = [(p, 3)] :=
  ⟨by decide, by decide,
    (exit_status (stubExternals [] [] 3) registryComponents {} ["a.png"] ()).2.2.1 3
      (by decide)⟩

/-- C7, counterexample. With every component accepting and `CreateCollage`
returning the non-zero value 256, `main` calls `os.Exit(256)` and the process
ends with status 0. -/
theorem exit_status_zero_on_nonzero_result :
    (createCalls
        (main (stubExternals [] [] 256) registryComponents {} ["a.png"] ()).trace).map Prod.snd
      = [256] ∧
    (256 : Int) ≠ 0 ∧
    (main (stubExternals [] [] 256) registryComponents {} ["a.png"] ()).outcome = .exit 256 ∧
    (main (stubExternals [] [] 256) registryComponents {} ["a.png"] ()).outcome.exitStatus
      = some 0 := by
  decide

/-! ## Lemmas: strings -/

theorem ToLower_eq_empty_iff (f : Char → Char) (s : String) : ToLower f s = "" ↔ s = "" := by
  simp [ToLower, String.ext_iff]

theorem sliceFrom1_ToLower_dot (f : Char → Char) : sliceFrom1 (ToLower f ".") = "" := by
  simp [sliceFrom1, ToLower, String.ext_iff]

/-- A path ending in a dot has the extension `"."`. -/
theorem Ext_append_dot (p : String) : Ext (p ++ ".") = "." := by
  simp [Ext, extAux, String.ext_iff]

/-- The loop of `filepath.Ext` on a path ending in a dot followed by
characters that are neither dots nor separators. -/
theorem extAux_suffix (l r acc : List Char) (h : ∀ c ∈ l, c ≠ '/' ∧ c ≠ '.') :
    extAux (l ++ '.' :: r) acc = '.' :: (l.reverse ++ acc) := by
  induction l generalizing acc with
  | nil => simp [extAux]
  | cons c cs ih =>
    have hc := h c (List.mem_cons_self _ _)
    have := ih (c :: acc) (fun d hd => h d (List.mem_cons_of_mem _ hd))
    simp [extAux, hc.1, hc.2, this]

/-- Appending `"." + t` to a name gives it the extension `"." + t` when `t`
holds neither a dot nor a separator. -/
theorem Ext_append_type (o t : String) (h : ∀ c ∈ t.data, c ≠ '/' ∧ c ≠ '.') :
    Ext (o ++ "." ++ t) = "." ++ t := by
  have := extAux_suffix t.data.reverse o.data.reverse []
    (fun c hc => h c (List.mem_reverse.1 hc))
  simp only [List.reverse_reverse, List.append_nil] at this
  simp [Ext, String.ext_iff, this]

/-- The types the switch recognizes hold neither a dot nor a separator. -/
theorem rendererKey_type_chars {t key : String} (h : rendererKey t = some key) :
    ∀ c ∈ t.data, c ≠ '/' ∧ c ≠ '.' := by
  unfold rendererKey at h
  split at h
  · next ht =>
    rcases ht with rfl | rfl | rfl | rfl | rfl <;> decide
  · split at h
    · next ht => subst ht; decide
    · split at h
      · next ht => subst ht; decide
      · cases h

/-! ## C4: unknown strategy key -/

/-- C4. Unknown strategy key (Scenario D): when the key built from the value
of `-lc`, `-di` or `-pc` is not a key of `AllCollageCreatorComponents`, the
run makes no `ParseCustomParameters` call and no `CreateCollage` call and ends
in `log.Fatal`; when the run gets as far as the lookups (every registration
returned true and there is an input image) the fatal error is the
`"Invalid ..."` one of the first lookup that fails. The lookups succeed exactly
for the registered variants: `Raster`; `Uniform`; `Random` and `TileInOrder`. -/
theorem unknown_strategy_key {σ : Type} (ext : Externals σ) (order : List Component)
    (flags : Flags) (inputImages : List String) (s0 : σ)
    (hunknown : registryLookup ("InputImageReader_" ++ flags.inputImageReader) = none ∨
      registryLookup ("DimensionInitializer_" ++ flags.dimensionInitializer) = none ∨
      registryLookup ("PositionCalculator_" ++ flags.positionCalculator) = none) :
    parseCalls (main ext order flags inputImages s0).trace = [] ∧
    createCalls (main ext order flags inputImages s0).trace = [] ∧
    (∃ msg, (main ext order flags inputImages s0).outcome = .fatal msg) ∧
    ((∀ x ∈ registerCalls (main ext order flags inputImages s0).trace, x.2 = true) →
      inputImages ≠ [] →
      (registryLookup ("InputImageReader_" ++ flags.inputImageReader) = none →
        (main ext order flags inputImages s0).outcome
          = .fatal ("Invalid InputImageReader:" ++ flags.inputImageReader)) ∧
      (registryLookup ("InputImageReader_" ++ flags.inputImageReader) ≠ none →
        registryLookup ("DimensionInitializer_" ++ flags.dimensionInitializer) = none →
        (main ext order flags inputImages s0).outcome
          = .fatal ("Invalid DimensionInitializer:" ++ flags.dimensionInitializer)) ∧
      (registryLookup ("InputImageReader_" ++ flags.inputImageReader) ≠ none →
        registryLookup ("DimensionInitializer_" ++ flags.dimensionInitializer) ≠ none →
        registryLookup ("PositionCalculator_" ++ flags.positionCalculator) = none →
        (main ext order flags inputImages s0).outcome
          = .fatal ("Invalid PositionCalculator:" ++ flags.positionCalculator))) ∧
    (∀ n, registryLookup ("InputImageReader_" ++ n) ≠ none ↔ n = "Raster") ∧
    (∀ n, registryLookup ("DimensionInitializer_" ++ n) ≠ none ↔ n = "Uniform") ∧
    (∀ n, registryLookup ("PositionCalculator_" ++ n) ≠ none ↔
      n = "Random" ∨ n = "TileInOrder") := by
  refine ⟨?_, ?_, ?_, ?_, ?_, ?_, ?_⟩
  case refine_5 =>
    intro n
    rw [registryLookup_inputImageReader]
    split <;> simp_all
  case refine_6 =>
    intro n
    rw [registryLookup_dimensionInitializer]
    split <;> simp_all
  case refine_7 =>
    intro n
    rw [registryLookup_positionCalculator]
    split
    · simp_all
    · split <;> simp_all
  all_goals
    have hm := main_case ext order flags inputImages s0
    generalize main ext order flags inputImages s0 = run at hm ⊢
    cases hm with
    | registrationFailed regCalls hpre hinit hfail =>
      first
        | exact parseCalls_map_registerEvent _
        | exact createCalls_map_registerEvent _
        | exact ⟨_, rfl⟩
        | (intro hall
           simp only [registerCalls_map_registerEvent] at hall
           obtain ⟨x, hx, hxf⟩ := hfail
           have := hall x hx
           rw [hxf] at this
           cases this)
    | noInputImage regCalls hall hord hin =>
      first
        | exact parseCalls_map_registerEvent _
        | exact createCalls_map_registerEvent _
        | exact ⟨_, rfl⟩
        | (intro _ hne
           exact absurd hin hne)
    | configureFailed regCalls hall hord first rest hin r hcfg =>
      have hc := configure_case ext flags inputImages first
        ⟨Parameters_init, regCalls.map registerEvent⟩
      rw [hcfg] at hc
      cases hc with
      | invalidInputImageReader h1 =>
        simp [parseCalls_append, createCalls_append, parseCalls_map_registerEvent,
          createCalls_map_registerEvent, parseCalls_setRoleEvents, createCalls_setRoleEvents, h1]
      | invalidDimensionInitializer iir h1 h2 =>
        simp [parseCalls_append, createCalls_append, parseCalls_map_registerEvent,
          createCalls_map_registerEvent, parseCalls_setRoleEvents, createCalls_setRoleEvents,
          h1, h2]
      | invalidPositionCalculator iir di h1 h2 h3 =>
        simp [parseCalls_append, createCalls_append, parseCalls_map_registerEvent,
          createCalls_map_registerEvent, parseCalls_setRoleEvents, createCalls_setRoleEvents,
          h1, h2, h3]
      | unrecognizedOutputType iir di pc h1 h2 h3 h4 =>
        simp [h1, h2, h3] at hunknown
      | constraints iir di pc cr key _ h1 h2 h3 h4 h5 h6 =>
        simp [h1, h2, h3] at hunknown
    | parseFailed regCalls hall hord first rest hin cfg hcfg iir di pc cr calls hget hne hseg
        hbut hfail =>
      obtain ⟨a, b, c, d, key, h1, h2, h3, h4, h5, _⟩ :=
        configure_ok_observations ext flags _ first regCalls cfg hcfg
      simp [h1, h2, h3] at hunknown
    | completed regCalls hall hord first rest hin cfg hcfg iir di pc cr calls hget hwhole
        hall2 s =>
      obtain ⟨a, b, c, d, key, h1, h2, h3, h4, h5, _⟩ :=
        configure_ok_observations ext flags _ first regCalls cfg hcfg
      simp [h1, h2, h3] at hunknown

/-- Witness of `unknown_strategy_key`: `-lc Bogus` with one input image. -/
theorem unknown_strategy_key_witness :
    registryLookup ("InputImageReader_" ++ "Bogus") = none ∧
    (main (stubExternals [] [] 0) registryComponents { inputImageReader := "Bogus" }
      ["a.png"] ()).outcome = .fatal "Invalid InputImageReader:Bogus" ∧
    parseCalls (main (stubExternals [] [] 0) registryComponents { inputImageReader := "Bogus" }
      ["a.png"] ()).trace = [] :=
  ⟨by decide, by decide,
    (unknown_strategy_key (stubExternals [] [] 0) registryComponents
      { inputImageReader := "Bogus" } ["a.png"] () (Or.inl (by decide))).1⟩

/-! ## C8: default output type -/

/-- The cases of the switch of lines 82-111. -/
theorem rendererKey_table (t : String) :
    (rendererKey t = some "CollageRenderer_Raster" ↔
      t = "jpg" ∨ t = "jpeg" ∨ t = "png" ∨ t = "tif" ∨ t = "tiff") ∧
    (rendererKey t = some "CollageRenderer_SVG" ↔ t = "svg") ∧
    (rendererKey t = some "CollageRenderer_ImageMagickScript" ↔ t = "sh") ∧
    (rendererKey t = none ↔
      ¬ (t = "jpg" ∨ t = "jpeg" ∨ t = "png" ∨ t = "tif" ∨ t = "tiff" ∨ t = "svg" ∨ t = "sh")) := by
  unfold rendererKey
  split
  · next h =>
    refine ⟨by simp [h], ?_, ?_, ?_⟩
    · rcases h with rfl | rfl | rfl | rfl | rfl <;> decide
    · rcases h with rfl | rfl | rfl | rfl | rfl <;> decide
    · rcases h with rfl | rfl | rfl | rfl | rfl <;> decide
  · next h =>
    split
    · next h2 => subst h2; decide
    · next h2 =>
      split
      · next h3 => subst h3; decide
      · next h3 =>
        simp only [not_or] at h
        simp [h, h2, h3]

/-- The output type after lines 70-81. -/
theorem resolvedType_cases {σ : Type} (ext : Externals σ) (flags : Flags) (first : String) :
    (flags.outputFileType = "" → Ext flags.outFile ≠ "" →
      resolvedType ext flags first = sliceFrom1 (ToLower ext.toLowerRune (Ext flags.outFile))) ∧
    (flags.outputFileType = "" → Ext flags.outFile = "" → Ext first ≠ "" →
      resolvedType ext flags first = sliceFrom1 (ToLower ext.toLowerRune (Ext first))) ∧
    (flags.outputFileType = "" → Ext flags.outFile = "" → Ext first = "" →
      resolvedType ext flags first = "jpg") ∧
    (flags.outputFileType ≠ "" → resolvedType ext flags first = flags.outputFileType) := by
  simp only [resolvedType, resolveOutputFileType, ToLower_eq_empty_iff]
  refine ⟨?_, ?_, ?_, ?_⟩
  · intro h1 h2
    simp [h1, h2, ToLower_eq_empty_iff]
  · intro h1 h2 h3
    simp [h1, h2, h3, ToLower_eq_empty_iff]
  · intro h1 h2 h3
    simp [h1, h2, h3, ToLower_eq_empty_iff]
  · intro h1
    simp [h1]

/-- What a failed `configure` started after the registration loop leaves in
the trace, by the place of the failure: one of the three checked lookups, the
switch, or lines 113-126. -/
theorem configure_error_places {σ : Type} (ext : Externals σ) (flags : Flags)
    (inputImages : List String) (first : String) (regCalls : List (Component × Bool))
    (r : Run)
    (h : configure ext flags inputImages first ⟨Parameters_init, regCalls.map registerEvent⟩
      = .error r) :
    (registryLookup ("InputImageReader_" ++ flags.inputImageReader) = none ∧
      r.outcome = .fatal ("Invalid InputImageReader:" ++ flags.inputImageReader) ∧
      roleSets r.trace = [(.progressMonitor, .ProgressMonitor)] ∧ outFileSets r.trace = []) ∨
    (∃ iir, registryLookup ("InputImageReader_" ++ flags.inputImageReader) = some iir ∧
      registryLookup ("DimensionInitializer_" ++ flags.dimensionInitializer) = none ∧
      r.outcome = .fatal ("Invalid DimensionInitializer:" ++ flags.dimensionInitializer) ∧
      roleSets r.trace = [(.progressMonitor, .ProgressMonitor), (.inputImageReader, iir)] ∧
      outFileSets r.trace = []) ∨
    (∃ iir di, registryLookup ("InputImageReader_" ++ flags.inputImageReader) = some iir ∧
      registryLookup ("DimensionInitializer_" ++ flags.dimensionInitializer) = some di ∧
      registryLookup ("PositionCalculator_" ++ flags.positionCalculator) = none ∧
      r.outcome = .fatal ("Invalid PositionCalculator:" ++ flags.positionCalculator) ∧
      roleSets r.trace = [(.progressMonitor, .ProgressMonitor), (.inputImageReader, iir),
        (.dimensionInitializer, di)] ∧
      outFileSets r.trace = []) ∨
    (∃ iir di pc, registryLookup ("InputImageReader_" ++ flags.inputImageReader) = some iir ∧
      registryLookup ("DimensionInitializer_" ++ flags.dimensionInitializer) = some di ∧
      registryLookup ("PositionCalculator_" ++ flags.positionCalculator) = some pc ∧
      rendererKey (resolvedType ext flags first) = none ∧
      r.outcome = .fatal ("Unrecognized output type:" ++ resolvedType ext flags first) ∧
      roleSets r.trace = [(.progressMonitor, .ProgressMonitor), (.inputImageReader, iir),
        (.dimensionInitializer, di), (.positionCalculator, pc)] ∧
      outFileSets r.trace = []) ∨
    (∃ iir di pc cr key,
      registryLookup ("InputImageReader_" ++ flags.inputImageReader) = some iir ∧
      registryLookup ("DimensionInitializer_" ++ flags.dimensionInitializer) = some di ∧
      registryLookup ("PositionCalculator_" ++ flags.positionCalculator) = some pc ∧
      rendererKey (resolvedType ext flags first) = some key ∧
      registryLookup key = some cr ∧
      roleSets r.trace = [(.progressMonitor, .ProgressMonitor), (.inputImageReader, iir),
        (.dimensionInitializer, di), (.positionCalculator, pc), (.collageRenderer, cr)] ∧
      outFileSets r.trace = [resolvedOutFile ext flags first]) := by
  have hc := configure_case ext flags inputImages first
    ⟨Parameters_init, regCalls.map registerEvent⟩
  rw [h] at hc
  cases hc with
  | invalidInputImageReader h1 =>
    refine Or.inl ⟨h1, rfl, ?_, ?_⟩
    · simp only [roleSets_append, roleSets_map_registerEvent, roleSets_setRoleEvents,
        List.nil_append]
    · simp only [outFileSets_append, outFileSets_map_registerEvent, outFileSets_setRoleEvents,
        List.nil_append]
  | invalidDimensionInitializer iir h1 h2 =>
    refine Or.inr (Or.inl ⟨iir, h1, h2, rfl, ?_, ?_⟩)
    · simp only [roleSets_append, roleSets_map_registerEvent, roleSets_setRoleEvents,
        List.nil_append]
    · simp only [outFileSets_append, outFileSets_map_registerEvent, outFileSets_setRoleEvents,
        List.nil_append]
  | invalidPositionCalculator iir di h1 h2 h3 =>
    refine Or.inr (Or.inr (Or.inl ⟨iir, di, h1, h2, h3, rfl, ?_, ?_⟩))
    · simp only [roleSets_append, roleSets_map_registerEvent, roleSets_setRoleEvents,
        List.nil_append]
    · simp only [outFileSets_append, outFileSets_map_registerEvent, outFileSets_setRoleEvents,
        List.nil_append]
  | unrecognizedOutputType iir di pc h1 h2 h3 h4 =>
    refine Or.inr (Or.inr (Or.inr (Or.inl ⟨iir, di, pc, h1, h2, h3, h4, rfl, ?_, ?_⟩)))
    · simp only [roleSets_append, roleSets_map_registerEvent, roleSets_setRoleEvents,
        List.nil_append]
    · simp only [outFileSets_append, outFileSets_map_registerEvent, outFileSets_setRoleEvents,
        List.nil_append]
  | constraints iir di pc cr key _ h1 h2 h3 h4 h5 h6 =>
    obtain ⟨t, t1, t2, t3, t4, t5, hres⟩ := setConstraints_spec ext flags inputImages
      (resolvedOutFile ext flags first)
      ⟨((((Parameters_init.set .progressMonitor .ProgressMonitor).set .inputImageReader iir).set
          .dimensionInitializer di).set .positionCalculator pc).set .collageRenderer cr,
        regCalls.map registerEvent ++ setRoleEvents [(.progressMonitor, .ProgressMonitor),
          (.inputImageReader, iir), (.dimensionInitializer, di), (.positionCalculator, pc),
          (.collageRenderer, cr)]⟩
    rw [resolvedOutFile, ← h6] at hres
    refine Or.inr (Or.inr (Or.inr (Or.inr ⟨iir, di, pc, cr, key, h1, h2, h3, h4, h5, ?_⟩)))
    rcases hres with ⟨g1, g2, d1, d2, e1, e2, e3, e4, e5⟩ | ⟨msg, e5⟩ | ⟨_, _, e5⟩
    · cases e5
    · cases e5
      simp only [roleSets_append, roleSets_map_registerEvent, roleSets_setRoleEvents, t4,
        outFileSets_append, outFileSets_map_registerEvent, outFileSets_setRoleEvents, t5,
        List.nil_append, List.append_nil, resolvedOutFile, and_self]
    · cases e5
      simp only [roleSets_append, roleSets_map_registerEvent, roleSets_setRoleEvents, t4,
        outFileSets_append, outFileSets_map_registerEvent, outFileSets_setRoleEvents, t5,
        List.nil_append, List.append_nil, resolvedOutFile, and_self]

/-- C8. Default output type. With `t` the resolved output type of a run whose
first input image is `first`: when `-t` is empty, `t` is the lower-cased
extension of the `-o` value without its first character (the dot) when that
extension is non-empty, otherwise that of the first input image when
non-empty, otherwise `"jpg"`; when `-t` is non-empty `t` is the `-t` value. An
extension `"."` gives the empty type. The switch selects the Raster renderer
for jpg, jpeg, png, tif, tiff, the SVG renderer for svg, the ImageMagickScript
renderer for sh, and no renderer for every other type, the empty one
included. In the run: a renderer is only ever set from the switch on `t`; an
unrecognized `t` always ends the run in `log.Fatal` before any
`ParseCustomParameters` or `CreateCollage` call; and when the run gets as far
as the switch (every registration returned true and the three lookups
succeeded) the fatal error is `"Unrecognized output type:" + t` for an
unrecognized `t`, and the renderer of the switch is set otherwise. -/
theorem default_output_type {σ : Type} (ext : Externals σ) (order : List Component)
    (flags : Flags) (first : String) (rest : List String) (s0 : σ) :
    (flags.outputFileType = "" → Ext flags.outFile ≠ "" →
      resolvedType ext flags first = sliceFrom1 (ToLower ext.toLowerRune (Ext flags.outFile))) ∧
    (flags.outputFileType = "" → Ext flags.outFile = "" → Ext first ≠ "" →
      resolvedType ext flags first = sliceFrom1 (ToLower ext.toLowerRune (Ext first))) ∧
    (flags.outputFileType = "" → Ext flags.outFile = "" → Ext first = "" →
      resolvedType ext flags first = "jpg") ∧
    (flags.outputFileType ≠ "" → resolvedType ext flags first = flags.outputFileType) ∧
    (flags.outputFileType = "" → Ext flags.outFile = "." → resolvedType ext flags first = "") ∧
    (∀ p : String, Ext (p ++ ".") = ".") ∧
    rendererKey "" = none ∧
    (∀ t, (rendererKey t = some "CollageRenderer_Raster" ↔
        t = "jpg" ∨ t = "jpeg" ∨ t = "png" ∨ t = "tif" ∨ t = "tiff") ∧
      (rendererKey t = some "CollageRenderer_SVG" ↔ t = "svg") ∧
      (rendererKey t = some "CollageRenderer_ImageMagickScript" ↔ t = "sh") ∧
      (rendererKey t = none ↔
        ¬ (t = "jpg" ∨ t = "jpeg" ∨ t = "png" ∨ t = "tif" ∨ t = "tiff" ∨ t = "svg" ∨
          t = "sh"))) ∧
    (∀ c, (Role.collageRenderer, c) ∈ roleSets (main ext order flags (first :: rest) s0).trace →
      ∃ key, rendererKey (resolvedType ext flags first) = some key ∧
        registryLookup key = some c) ∧
    (rendererKey (resolvedType ext flags first) = none →
      parseCalls (main ext order flags (first :: rest) s0).trace = [] ∧
      createCalls (main ext order flags (first :: rest) s0).trace = [] ∧
      ∃ msg, (main ext order flags (first :: rest) s0).outcome = .fatal msg) ∧
    ((∀ x ∈ registerCalls (main ext order flags (first :: rest) s0).trace, x.2 = true) →
      registryLookup ("InputImageReader_" ++ flags.inputImageReader) ≠ none →
      registryLookup ("DimensionInitializer_" ++ flags.dimensionInitializer) ≠ none →
      registryLookup ("PositionCalculator_" ++ flags.positionCalculator) ≠ none →
      (rendererKey (resolvedType ext flags first) = none →
        (main ext order flags (first :: rest) s0).outcome
          = .fatal ("Unrecognized output type:" ++ resolvedType ext flags first)) ∧
      (∀ key, rendererKey (resolvedType ext flags first) = some key →
        ∃ c, registryLookup key = some c ∧
          (Role.collageRenderer, c) ∈
            roleSets (main ext order flags (first :: rest) s0).trace)) := by
  obtain ⟨a1, a2, a3, a4⟩ := resolvedType_cases ext flags first
  refine ⟨a1, a2, a3, a4, ?_, Ext_append_dot, by decide, rendererKey_table, ?_⟩
  · intro h1 h2
    rw [a1 h1 (by rw [h2]; decide), h2]
    exact sliceFrom1_ToLower_dot _
  have hm := main_case ext order flags (first :: rest) s0
  generalize main ext order flags (first :: rest) s0 = run at hm ⊢
  cases hm with
  | registrationFailed regCalls hpre hinit hfail =>
    refine ⟨?_, ?_, ?_⟩
    · simp [roleSets_map_registerEvent]
    · intro _
      exact ⟨parseCalls_map_registerEvent _, createCalls_map_registerEvent _, _, rfl⟩
    · intro hall
      exfalso
      simp only [registerCalls_map_registerEvent] at hall
      obtain ⟨x, hx, hxf⟩ := hfail
      have := hall x hx
      rw [hxf] at this
      cases this
  | noInputImage regCalls hall hord hin => cases hin
  | configureFailed regCalls hall hord first1 rest1 hin r hcfg =>
    cases hin
    obtain ⟨e1, e2, e3⟩ := configure_error_observations ext flags _ first regCalls _ hcfg
    rcases configure_error_places ext flags _ first regCalls _ hcfg with
      ⟨h1, ho, hr, _⟩ | ⟨iir, h1, h2, ho, hr, _⟩ | ⟨iir, di, h1, h2, h3, ho, hr, _⟩ |
      ⟨iir, di, pc, h1, h2, h3, h4, ho, hr, _⟩ | ⟨iir, di, pc, cr, key, h1, h2, h3, h4, h5, hr, _⟩
    · refine ⟨by simp [hr], fun _ => ⟨e2, e3, _, ho⟩, fun _ hl => absurd h1 hl⟩
    · refine ⟨by simp [hr], fun _ => ⟨e2, e3, _, ho⟩, fun _ _ hl => absurd h2 hl⟩
    · refine ⟨by simp [hr], fun _ => ⟨e2, e3, _, ho⟩, fun _ _ _ hl => absurd h3 hl⟩
    · refine ⟨by simp [hr], fun _ => ⟨e2, e3, _, ho⟩, fun _ _ _ _ => ⟨fun _ => ho, ?_⟩⟩
      intro key hk
      rw [h4] at hk
      cases hk
    · refine ⟨?_, ?_, fun _ _ _ _ => ⟨?_, ?_⟩⟩
      · intro c hc
        simp only [hr, List.mem_cons, Prod.mk.injEq, List.mem_singleton, List.not_mem_nil,
          or_false, reduceCtorEq, false_and, false_or, true_and] at hc
        subst hc
        exact ⟨key, h4, h5⟩
      · intro hn
        rw [h4] at hn
        cases hn
      · intro hn
        rw [h4] at hn
        cases hn
      · intro k hk
        rw [h4] at hk
        cases hk
        exact ⟨cr, h5, by simp [hr]⟩
  | parseFailed regCalls hall hord first1 rest1 hin cfg hcfg iir di pc cr calls hget hne hseg
      hbut hfail =>
    cases hin
    obtain ⟨a, b, c, d, key, h1, h2, h3, h4, h5, o1, o2, o3, o4, o5, o6⟩ :=
      configure_ok_observations ext flags _ first regCalls cfg hcfg
    simp only [roleSets_append, o4, roleSets_map_parseEvent, List.append_nil]
    refine ⟨?_, ?_, fun _ _ _ _ => ⟨?_, ?_⟩⟩
    · intro c hc
      simp only [List.mem_cons, Prod.mk.injEq, List.mem_singleton, List.not_mem_nil,
        or_false, reduceCtorEq, false_and, false_or, true_and] at hc
      subst hc
      exact ⟨key, h4, h5⟩
    · intro hn
      rw [h4] at hn
      cases hn
    · intro hn
      rw [h4] at hn
      cases hn
    · intro k hk
      rw [h4] at hk
      cases hk
      exact ⟨d, h5, by simp⟩
  | completed regCalls hall hord first1 rest1 hin cfg hcfg iir di pc cr calls hget hwhole
      hall2 s =>
    cases hin
    obtain ⟨a, b, c, d, key, h1, h2, h3, h4, h5, o1, o2, o3, o4, o5, o6⟩ :=
      configure_ok_observations ext flags _ first regCalls cfg hcfg
    have hr : roleSets [Event.createCollage cfg.params (ext.CreateCollage cfg.params s)]
        = [] := rfl
    simp only [roleSets_append, o4, roleSets_map_parseEvent, List.append_nil, hr]
    refine ⟨?_, ?_, fun _ _ _ _ => ⟨?_, ?_⟩⟩
    · intro c hc
      simp only [List.mem_cons, Prod.mk.injEq, List.mem_singleton, List.not_mem_nil,
        or_false, reduceCtorEq, false_and, false_or, true_and] at hc
      subst hc
      exact ⟨key, h4, h5⟩
    · intro hn
      rw [h4] at hn
      cases hn
    · intro hn
      rw [h4] at hn
      cases hn
    · intro k hk
      rw [h4] at hk
      cases hk
      exact ⟨d, h5, by simp⟩


/-- Witness of C8: with `-o out.SVG` and no `-t` the type is `svg` and the SVG
renderer is set. -/
theorem default_output_type_witness :
    resolvedType (stubExternals [] [] 0) { outFile := "out.SVG" } "a.png" = "svg" ∧
    ∃ c, registryLookup "CollageRenderer_SVG" = some c ∧
      (Role.collageRenderer, c) ∈
        roleSets (main (stubExternals [] [] 0) registryComponents { outFile := "out.SVG" }
          ["a.png"] ()).trace :=
  ⟨by decide,
    ((default_output_type (stubExternals [] [] 0) registryComponents { outFile := "out.SVG" }
      "a.png" [] ()).2.2.2.2.2.2.2.2.2.2 (by decide) (by decide) (by decide) (by decide)).2
      "CollageRenderer_SVG" (by decide)⟩

/-! ## C10: completion of the output file name -/

/-- The output file name after line 111, by the extension of the `-o` value. -/
theorem resolvedOutFile_cases {σ : Type} (ext : Externals σ) (flags : Flags) (first : String) :
    (Ext flags.outFile ≠ "" → resolvedOutFile ext flags first = flags.outFile) ∧
    (Ext flags.outFile = "" →
      resolvedOutFile ext flags first
        = flags.outFile ++ "." ++ resolvedType ext flags first) := by
  have hjpg : Ext (flags.outFile ++ ".jpg") = ".jpg" := by
    have := Ext_append_type flags.outFile "jpg" (by decide)
    rw [String.append_assoc] at this
    exact this
  have hassoc : flags.outFile ++ ".jpg" = flags.outFile ++ "." ++ "jpg" := by
    rw [String.append_assoc]
    rfl
  constructor
  · intro h
    by_cases ht : flags.outputFileType = ""
    · simp [resolvedOutFile, resolveOutputFileType, completeOutFile, ToLower_eq_empty_iff, h, ht]
    · simp [resolvedOutFile, resolveOutputFileType, completeOutFile, ToLower_eq_empty_iff, h, ht]
  · intro h
    by_cases ht : flags.outputFileType = ""
    · by_cases hf : Ext first = ""
      · simp only [resolvedOutFile, resolvedType, resolveOutputFileType, completeOutFile,
          ToLower_eq_empty_iff, h, ht, hf, if_true, hjpg]
        simpa using hassoc
      · simp [resolvedOutFile, resolvedType, resolveOutputFileType, completeOutFile,
          ToLower_eq_empty_iff, h, ht, hf]
    · simp [resolvedOutFile, resolvedType, resolveOutputFileType, completeOutFile,
        ToLower_eq_empty_iff, h, ht]

theorem append_dot_ne_empty (t : String) : "." ++ t ≠ "" := by
  simp [String.ext_iff]

/-- C10. Output file name completion: in every run of `main` that reaches
`SetOutFile`, `SetOutFile` is called once; with `t` the resolved output type,
the name passed is the `-o` value itself when that has a non-empty extension,
and the `-o` value followed by `"." + t` otherwise, in which case its
extension is exactly `"." + t` (appended once); in both cases the name passed
has a non-empty extension. -/
theorem output_file_name_completion {σ : Type} (ext : Externals σ) (order : List Component)
    (flags : Flags) (inputImages : List String) (s0 : σ) (name : String)
    (h : name ∈ outFileSets (main ext order flags inputImages s0).trace) :
    ∃ first rest, inputImages = first :: rest ∧
      outFileSets (main ext order flags inputImages s0).trace = [name] ∧
      (Ext flags.outFile ≠ "" → name = flags.outFile) ∧
      (Ext flags.outFile = "" →
        name = flags.outFile ++ "." ++ resolvedType ext flags first ∧
        Ext name = "." ++ resolvedType ext flags first) ∧
      Ext name ≠ "" := by
  have fin : ∀ (first : String) (key : String),
      rendererKey (resolvedType ext flags first) = some key →
      (Ext flags.outFile ≠ "" → resolvedOutFile ext flags first = flags.outFile) ∧
      (Ext flags.outFile = "" →
        resolvedOutFile ext flags first = flags.outFile ++ "." ++ resolvedType ext flags first ∧
        Ext (resolvedOutFile ext flags first) = "." ++ resolvedType ext flags first) ∧
      Ext (resolvedOutFile ext flags first) ≠ "" := by
    intro first key hk
    obtain ⟨c1, c2⟩ := resolvedOutFile_cases ext flags first
    have hext := Ext_append_type flags.outFile (resolvedType ext flags first)
      (rendererKey_type_chars hk)
    refine ⟨c1, fun he => ⟨c2 he, by rw [c2 he, hext]⟩, ?_⟩
    by_cases he : Ext flags.outFile = ""
    · rw [c2 he, hext]
      exact append_dot_ne_empty _
    · rw [c1 he]
      exact he
  have hm := main_case ext order flags inputImages s0
  generalize main ext order flags inputImages s0 = run at hm h ⊢
  cases hm with
  | registrationFailed regCalls hpre hinit hfail =>
    simp [outFileSets_map_registerEvent] at h
  | noInputImage regCalls hall hord hin =>
    simp [outFileSets_map_registerEvent] at h
  | configureFailed regCalls hall hord first rest hin r hcfg =>
    rcases configure_error_places ext flags _ first regCalls _ hcfg with
      ⟨_, _, _, ho⟩ | ⟨_, _, _, _, _, ho⟩ | ⟨_, _, _, _, _, _, _, ho⟩ |
      ⟨_, _, _, _, _, _, _, _, _, ho⟩ | ⟨iir, di, pc, cr, key, h1, h2, h3, h4, h5, hr, ho⟩
    · simp [ho] at h
    · simp [ho] at h
    · simp [ho] at h
    · simp [ho] at h
    · rw [ho, List.mem_singleton] at h
      subst h
      exact ⟨first, rest, hin, ho, fin first key h4⟩
  | parseFailed regCalls hall hord first rest hin cfg hcfg iir di pc cr calls hget hne hseg
      hbut hfail =>
    obtain ⟨a, b, c, d, key, h1, h2, h3, h4, h5, o1, o2, o3, o4, o5, o6⟩ :=
      configure_ok_observations ext flags _ first regCalls cfg hcfg
    simp only [outFileSets_append, o5, outFileSets_map_parseEvent, List.append_nil,
      List.mem_singleton] at h ⊢
    subst h
    exact ⟨first, rest, hin, rfl, fin first key h4⟩
  | completed regCalls hall hord first rest hin cfg hcfg iir di pc cr calls hget hwhole
      hall2 s =>
    obtain ⟨a, b, c, d, key, h1, h2, h3, h4, h5, o1, o2, o3, o4, o5, o6⟩ :=
      configure_ok_observations ext flags _ first regCalls cfg hcfg
    have hc : outFileSets [Event.createCollage cfg.params (ext.CreateCollage cfg.params s)]
        = [] := rfl
    simp only [outFileSets_append, o5, outFileSets_map_parseEvent, List.append_nil, hc,
      List.mem_singleton] at h ⊢
    subst h
    exact ⟨first, rest, hin, rfl, fin first key h4⟩

/-- Witness of `output_file_name_completion`: the default `-o Collage` with
the input image `a.PNG` is completed to `Collage.png`. -/
theorem output_file_name_completion_witness :
    "Collage.png" ∈ outFileSets
      (main (stubExternals [] [] 0) registryComponents {} ["a.PNG"] ()).trace ∧
    ∃ first rest, ["a.PNG"] = first :: rest ∧
      outFileSets (main (stubExternals [] [] 0) registryComponents {} ["a.PNG"] ()).trace
        = ["Collage.png"] ∧
      (Ext ({} : Flags).outFile ≠ "" → "Collage.png" = ({} : Flags).outFile) ∧
      (Ext ({} : Flags).outFile = "" →
        "Collage.png" = ({} : Flags).outFile ++ "." ++
            resolvedType (stubExternals [] [] 0) {} first ∧
        Ext "Collage.png" = "." ++ resolvedType (stubExternals [] [] 0) {} first) ∧
      Ext "Collage.png" ≠ "" :=
  ⟨by decide,
    output_file_name_completion (stubExternals [] [] 0) registryComponents {} ["a.PNG"] ()
      "Collage.png" (by decide)⟩

/-! ## C9: canvas resolution, Scenario A -/

/-- Scenario A on the resolver: one image placed at size 100x100, at any
position, padding 10x10, nothing else declared. -/
theorem resolveCanvas_scenarioA (src : String) (native : Dimensions) (x y : Int) :
    resolveCanvas ⟨10, 10, 0, 0, false⟩ ⟨0, 0, 0, 0, false⟩ ⟨0, 0⟩ ⟨0, 0⟩
        [⟨src, native, ⟨100, 100⟩, (x, y)⟩]
      = .ok ⟨⟨120, 120⟩, [⟨src, native, ⟨100, 100⟩, (10, 10)⟩]⟩ := by
  have hx : (x + 100 - x).toNat = 100 := by
    have : x + 100 - x = 100 := by omega
    rw [this]; rfl
  have hy : (y + 100 - y).toNat = 100 := by
    have : y + 100 - y = 100 := by omega
    rw [this]; rfl
  simp [resolveCanvas, extent, paddingOn, growToRatio, clampAxis, hx, hy]

/-- C9. Canvas resolution, Scenario A: in a run of `main` with exactly one
input image, `-padding 10x10` and `0x0` for the aspect ratio and the minimum
and maximum sizes, with a library that parses `"10x10"` and `"0x0"` to those
values, the parameters handed to `CreateCollage` make the resolving stage,
for that image placed at size 100x100 at whatever position the position
calculator chose, produce the canvas 120x120 with the image at (10,10). -/
theorem scenario_A_canvas {σ : Type} (ext : Externals σ) (order : List Component)
    (flags : Flags) (image : String) (s0 : σ)
    (hpadding : flags.padding = "10x10") (haspect : flags.aspectRatio = "0x0")
    (hmin : flags.minCanvasSize = "0x0") (hmax : flags.maxCanvasSize = "0x0")
    (hparse10 : ext.ParseGeometry "10x10" = .ok ⟨10, 10, 0, 0, false⟩)
    (hparse0 : ext.ParseGeometry "0x0" = .ok ⟨0, 0, 0, 0, false⟩)
    (hdims0 : ext.MustParseDims "0x0" = some ⟨0, 0⟩) :
    ∀ call ∈ createCalls (main ext order flags [image] s0).trace,
      call.1.inFiles = [image] ∧
      ∀ (native : Dimensions) (x y : Int),
        resolving call.1 [⟨image, native, ⟨100, 100⟩, (x, y)⟩]
          = .ok ⟨⟨120, 120⟩, [⟨image, native, ⟨100, 100⟩, (10, 10)⟩]⟩ := by
  have hm := main_case ext order flags [image] s0
  generalize main ext order flags [image] s0 = run at hm ⊢
  cases hm with
  | registrationFailed regCalls hpre hinit hfail =>
    simp [createCalls_map_registerEvent]
  | noInputImage regCalls hall hord hin =>
    simp [createCalls_map_registerEvent]
  | configureFailed regCalls hall hord first rest hin r hcfg =>
    obtain ⟨_, _, e3⟩ := configure_error_observations ext flags _ first regCalls _ hcfg
    simp [e3]
  | parseFailed regCalls hall hord first rest hin cfg hcfg iir di pc cr calls hget hne hseg
      hbut hfail =>
    obtain ⟨a, b, c, d, key, h1, h2, h3, h4, h5, o1, o2, o3, o4, o5, o6⟩ :=
      configure_ok_observations ext flags _ first regCalls cfg hcfg
    simp [createCalls_append, o3, createCalls_map_parseEvent]
  | completed regCalls hall hord first rest hin cfg hcfg iir di pc cr calls hget hwhole
      hall2 s =>
    obtain ⟨a, b, c, d, key, t, g1, g2, d1, d2, h1, h2, h3, h4, h5, h6, h7, h8, h9,
      _, _, t3, _, _, htr, hpar⟩ := configure_ok_spec ext flags _ first _ cfg hcfg
    obtain ⟨_, _, _, _, _, _, _, _, _, _, _, _, o3, _, _, _⟩ :=
      configure_ok_observations ext flags _ first regCalls cfg hcfg
    rw [haspect, hparse0] at h6
    rw [hpadding, hparse10] at h7
    rw [hmin, hdims0] at h8
    rw [hmax, hdims0] at h9
    cases h6
    cases h7
    cases h8
    cases h9
    have hc : createCalls [Event.createCollage cfg.params (ext.CreateCollage cfg.params s)]
        = [(cfg.params, ext.CreateCollage cfg.params s)] := rfl
    simp only [createCalls_append, o3, createCalls_map_parseEvent, hc, List.nil_append,
      List.mem_singleton]
    intro call hcall
    subst hcall
    refine ⟨by rw [hpar], ?_⟩
    intro native x y
    simp only [resolving, hpar]
    exact resolveCanvas_scenarioA image native x y

/-- Witness of `scenario_A_canvas`: the run reaches `CreateCollage`, and the
resolving stage gives the canvas 120x120 with the image at (10,10). -/
theorem scenario_A_canvas_witness :
    createCalls (main (stubExternals [] [] 0) registryComponents { padding := "10x10" }
      ["a.png"] ()).trace ≠ [] ∧
    ∀ call ∈ createCalls (main (stubExternals [] [] 0) registryComponents
        { padding := "10x10" } ["a.png"] ()).trace,
      call.1.inFiles = ["a.png"] ∧
      ∀ (native : Dimensions) (x y : Int),
        resolving call.1 [⟨"a.png", native, ⟨100, 100⟩, (x, y)⟩]
          = .ok ⟨⟨120, 120⟩, [⟨"a.png", native, ⟨100, 100⟩, (10, 10)⟩]⟩ :=
  ⟨by decide,
    scenario_A_canvas (stubExternals [] [] 0) registryComponents { padding := "10x10" }
      "a.png" () rfl rfl rfl rfl rfl rfl rfl⟩

end CollageCreatorCLI
